import Mathlib

/-!
Shallow embedding of the Zephyr LE-audio control services (VCS, VOCS, AICS
servers, the AICS/VCS client write-retry machine, the CSIS set-lock engine
and the ASCS control-point response builder), together with theorems that
settle the frozen specification claims against these definitions.

Machine integers are modelled as `Nat` (unsigned bytes, wrapped with `% 256`
where the C code can overflow) and `Int` (signed operands decoded from wire
bytes).  GATT handler results carry the service/ATT error byte; `BT_GATT_ERR`
in C negates the byte, here we keep the byte itself.
-/

namespace Zephyr

/-- Standard ATT error bytes used by the handlers. -/
def BT_ATT_ERR_INVALID_OFFSET : Nat := 0x07

def BT_ATT_ERR_INVALID_ATTRIBUTE_LEN : Nat := 0x0D

def BT_ATT_ERR_UNLIKELY : Nat := 0x0E

/-- Result of a GATT attribute write handler: either an error byte
(`BT_GATT_ERR`) or the consumed length. -/
inductive GattResult where
  | err (code : Nat)
  | ok (len : Nat)
deriving DecidableEq

/-- Decode a wire byte as a signed 8-bit value. -/
def i8 (b : Nat) : Int := if b < 128 then (b : Int) else (b : Int) - 256

/-- Decode two little-endian wire bytes as a signed 16-bit value. -/
def i16ofLE (lo hi : Nat) : Int :=
  let u := lo + 256 * hi
  if u < 32768 then (u : Int) else (u : Int) - 65536

/-- Byte `i` of a write payload (out-of-bounds C reads are modelled as 0). -/
def byte (data : List Nat) (i : Nat) : Nat := data.getD i 0

/-! ## VCS server (src/unnamed/part_000, `write_vcs_control`) -/

def VCS_OPCODE_REL_VOL_DOWN : Nat := 0x00
def VCS_OPCODE_REL_VOL_UP : Nat := 0x01
def VCS_OPCODE_UNMUTE_REL_VOL_DOWN : Nat := 0x02
def VCS_OPCODE_UNMUTE_REL_VOL_UP : Nat := 0x03
def VCS_OPCODE_SET_ABS_VOL : Nat := 0x04
def VCS_OPCODE_UNMUTE : Nat := 0x05
def VCS_OPCODE_MUTE : Nat := 0x06

def VCS_ERR_INVALID_COUNTER : Nat := 0x80
def VCS_ERR_OP_NOT_SUPPORTED : Nat := 0x81

def VCS_CP_LEN : Nat := 0x02
def VCS_CP_ABS_VOL_LEN : Nat := 0x03

/-- Volume state characteristic value (`struct vcs_state_t`). -/
structure VcsState where
  volume : Nat
  mute : Nat
  change_counter : Nat
deriving DecidableEq

/-- Registered upper-layer callback structure (`struct bt_vcs_cb_t`);
each field records whether the corresponding function pointer is non-null. -/
structure VcsCb where
  hasState : Bool
  hasFlags : Bool
deriving DecidableEq

/-- The VCS server singleton (`struct vcs_inst_t`), restricted to the fields
touched by the control-point handler. -/
structure VcsInst where
  state : VcsState
  flags : Nat
  volume_step : Nat
  cb : Option VcsCb
deriving DecidableEq

/-- Observable side effects of `write_vcs_control`: notifications via
`bt_gatt_notify_uuid` and upper-layer callback invocations.  A flags
callback invocation records whether the invoked `cb->flags` pointer is null
(the guard in the source checks `cb->state` instead). -/
inductive VcsEvent where
  | stateNotify (s : VcsState)
  | stateCbCall
  | flagsNotify (f : Nat)
  | flagsCbCall (isNullPtr : Bool)
deriving DecidableEq

/-- C macro `VOLUME_DOWN`: `MAX(0, volume - step)` on `int`, cast to u8. -/
def VOLUME_DOWN (step v : Nat) : Nat := v - step

/-- C macro `VOLUME_UP`: `MIN(UINT8_MAX, volume + step)`. -/
def VOLUME_UP (step v : Nat) : Nat := min 255 (v + step)

/-- Whether `vcs_inst.cb && vcs_inst.cb->state` holds. -/
def vcsCbStateSet (inst : VcsInst) : Bool :=
  match inst.cb with
  | some c => c.hasState
  | none => false

/-- Whether `vcs_inst.cb && vcs_inst.cb->flags` holds. -/
def vcsCbFlagsSet (inst : VcsInst) : Bool :=
  match inst.cb with
  | some c => c.hasFlags
  | none => false

/-- The per-opcode switch of `write_vcs_control`: returns the updated state
value together with the `notify` and `volume_change` booleans, or `none` for
the `default` branch. -/
def vcsOpcodeSwitch (inst : VcsInst) (data : List Nat) (opcode : Nat) :
    Option (VcsState × Bool × Bool) :=
  let s := inst.state
  match opcode with
  | 0 =>
      some (if s.volume ≠ 0 then
              ({ s with volume := VOLUME_DOWN inst.volume_step s.volume }, true, true)
            else (s, false, true))
  | 1 =>
      some (if s.volume ≠ 255 then
              ({ s with volume := VOLUME_UP inst.volume_step s.volume }, true, true)
            else (s, false, true))
  | 2 =>
      let p := if s.volume ≠ 0 then (VOLUME_DOWN inst.volume_step s.volume, true)
               else (s.volume, false)
      let q := if s.mute ≠ 0 then (0, true) else (s.mute, false)
      some ({ s with volume := p.1, mute := q.1 }, p.2 || q.2, true)
  | 3 =>
      let p := if s.volume ≠ 255 then (VOLUME_UP inst.volume_step s.volume, true)
               else (s.volume, false)
      let q := if s.mute ≠ 0 then (0, true) else (s.mute, false)
      some ({ s with volume := p.1, mute := q.1 }, p.2 || q.2, true)
  | 4 =>
      let v := byte data 2
      some (if s.volume ≠ v then ({ s with volume := v }, true, true)
            else (s, false, true))
  | 5 =>
      some (if s.mute ≠ 0 then ({ s with mute := 0 }, true, false)
            else (s, false, false))
  | 6 =>
      some (if s.mute = 0 then ({ s with mute := 1 }, true, false)
            else (s, false, false))
  | _ => none

/-- Shallow embedding of `write_vcs_control` (src/unnamed/part_000 lines
76-210).  `off` is the ATT write offset and `data` the written bytes; the
function returns the handler result, the updated instance and the emitted
side-effect events in program order. -/
def write_vcs_control (inst : VcsInst) (off : Nat) (data : List Nat) :
    GattResult × VcsInst × List VcsEvent :=
  if off ≠ 0 then (.err BT_ATT_ERR_INVALID_OFFSET, inst, [])
  else if data.length = 0 then (.err BT_ATT_ERR_INVALID_ATTRIBUTE_LEN, inst, [])
  else
    let opcode := byte data 0
    if VCS_OPCODE_MUTE < opcode then (.err VCS_ERR_OP_NOT_SUPPORTED, inst, [])
    else if data.length < VCS_CP_LEN ∨
        (data.length = VCS_CP_ABS_VOL_LEN ∧ opcode ≠ VCS_OPCODE_SET_ABS_VOL) ∨
        VCS_CP_ABS_VOL_LEN < data.length then
      (.err BT_ATT_ERR_INVALID_ATTRIBUTE_LEN, inst, [])
    else if byte data 1 ≠ inst.state.change_counter then
      (.err VCS_ERR_INVALID_COUNTER, inst, [])
    else
      match vcsOpcodeSwitch inst data opcode with
      | none => (.err VCS_ERR_OP_NOT_SUPPORTED, inst, [])
      | some (s1, notify, volume_change) =>
        let inst1 :=
          if notify then
            { inst with state :=
                { s1 with change_counter := (s1.change_counter + 1) % 256 } }
          else { inst with state := s1 }
        let evs1 : List VcsEvent :=
          if notify then
            [VcsEvent.stateNotify inst1.state] ++
              (if vcsCbStateSet inst then [VcsEvent.stateCbCall] else [])
          else []
        if volume_change ∧ inst1.flags = 0 then
          (.ok data.length, { inst1 with flags := 1 },
           evs1 ++ [VcsEvent.flagsNotify 1] ++
             (if vcsCbStateSet inst then
                [VcsEvent.flagsCbCall (!(vcsCbFlagsSet inst))] else []))
        else (.ok data.length, inst1, evs1)

/-- Guard conjunction of `write_vcs_control`: the write reaches the
change-counter check exactly when this holds. -/
def vcsPreCounterGuards (off : Nat) (data : List Nat) : Prop :=
  off = 0 ∧ data.length ≠ 0 ∧ byte data 0 ≤ VCS_OPCODE_MUTE ∧
    ¬ (data.length < VCS_CP_LEN ∨
       (data.length = VCS_CP_ABS_VOL_LEN ∧ byte data 0 ≠ VCS_OPCODE_SET_ABS_VOL) ∨
       VCS_CP_ABS_VOL_LEN < data.length)

instance (off : Nat) (data : List Nat) : Decidable (vcsPreCounterGuards off data) := by
  unfold vcsPreCounterGuards
  infer_instance

/-- The VCS instance resulting from a sequence of control-point writes
(each given as ATT offset and payload), in receive order. -/
def vcsWriteSeq (inst : VcsInst) (ws : List (Nat × List Nat)) : VcsInst :=
  ws.foldl (fun i w => (write_vcs_control i w.1 w.2).2.1) inst

example :
    (write_vcs_control ⟨⟨100, 0, 0⟩, 0, 1, none⟩ 0 [0x01, 0x00]).2.1 =
      ⟨⟨101, 0, 1⟩, 1, 1, none⟩ := by decide

example :
    (write_vcs_control ⟨⟨100, 0, 0⟩, 0, 1, none⟩ 0 [0x04, 0x05, 200]).1 =
      .err VCS_ERR_INVALID_COUNTER := by decide

/-! ## VOCS server (src/unnamed/part_002, `write_vocs_control`) -/

def VOCS_OPCODE_SET_OFFSET : Nat := 0x01

def VOCS_ERR_INVALID_COUNTER : Nat := 0x80
def VOCS_ERR_OP_NOT_SUPPORTED : Nat := 0x81
def VOCS_ERR_OUT_OF_RANGE : Nat := 0x82

/-- Offset state characteristic value (`struct vocs_state_t`). -/
structure VocsState where
  offset : Int
  change_counter : Nat
deriving DecidableEq

/-- One VOCS instance (`struct bt_vocs`), restricted to the fields touched by
the control-point handler; `cbState` records whether `cb && cb->state`. -/
structure VocsInst where
  state : VocsState
  cbState : Bool
deriving DecidableEq

/-- Observable side effects of `write_vocs_control`. -/
inductive VocsEvent where
  | stateNotify (s : VocsState)
  | stateCbCall
deriving DecidableEq

/-- Shallow embedding of `write_vocs_control` (src/unnamed/part_002 lines
93-159).  Note the guard order of the source: the zero-length and opcode
checks run before the ATT-offset check.  `sizeof(struct vocs_control_t)` is
4 and the 16-bit operand is read little-endian from bytes 2 and 3. -/
def write_vocs_control (inst : VocsInst) (off : Nat) (data : List Nat) :
    GattResult × VocsInst × List VocsEvent :=
  if data.length = 0 then (.err BT_ATT_ERR_INVALID_ATTRIBUTE_LEN, inst, [])
  else if byte data 0 ≠ VOCS_OPCODE_SET_OFFSET then
    (.err VOCS_ERR_OP_NOT_SUPPORTED, inst, [])
  else if off ≠ 0 then (.err BT_ATT_ERR_INVALID_OFFSET, inst, [])
  else if data.length ≠ 4 then (.err BT_ATT_ERR_INVALID_ATTRIBUTE_LEN, inst, [])
  else if byte data 1 ≠ inst.state.change_counter then
    (.err VOCS_ERR_INVALID_COUNTER, inst, [])
  else
    let v := i16ofLE (byte data 2) (byte data 3)
    if 255 < v ∨ v < -255 then (.err VOCS_ERR_OUT_OF_RANGE, inst, [])
    else if inst.state.offset ≠ v then
      let s1 : VocsState := ⟨v, (inst.state.change_counter + 1) % 256⟩
      (.ok data.length, ⟨s1, inst.cbState⟩,
       [VocsEvent.stateNotify s1] ++
         (if inst.cbState then [VocsEvent.stateCbCall] else []))
    else (.ok data.length, inst, [])

/-- Guard conjunction of `write_vocs_control` up to (excluding) the
change-counter check. -/
def vocsPreCounterGuards (off : Nat) (data : List Nat) : Prop :=
  data.length ≠ 0 ∧ byte data 0 = VOCS_OPCODE_SET_OFFSET ∧ off = 0 ∧
    data.length = 4

instance (off : Nat) (data : List Nat) : Decidable (vocsPreCounterGuards off data) := by
  unfold vocsPreCounterGuards
  infer_instance

example :
    (write_vocs_control ⟨⟨0, 0⟩, false⟩ 0 [0x01, 0x00, 0xFF, 0x00]).2.1.state =
      ⟨255, 1⟩ := by decide

example :
    (write_vocs_control ⟨⟨0, 0⟩, false⟩ 0 [0x01, 0x00, 0x00, 0x02]).1 =
      .err VOCS_ERR_OUT_OF_RANGE := by decide

/-! ## AICS server (src/subsys/bluetooth/host/audio/aics.c,
`write_aics_control`) -/

def AICS_OPCODE_SET_GAIN : Nat := 0x01
def AICS_OPCODE_UNMUTE : Nat := 0x02
def AICS_OPCODE_MUTE : Nat := 0x03
def AICS_OPCODE_SET_MANUAL : Nat := 0x04
def AICS_OPCODE_SET_AUTO : Nat := 0x05

def AICS_STATE_UNMUTED : Nat := 0x00
def AICS_STATE_MUTED : Nat := 0x01
def AICS_STATE_MUTE_DISABLED : Nat := 0x02

def AICS_MODE_MANUAL_ONLY : Nat := 0x00
def AICS_MODE_AUTO_ONLY : Nat := 0x01
def AICS_MODE_MANUAL : Nat := 0x02
def AICS_MODE_AUTO : Nat := 0x03

def AICS_ERR_INVALID_COUNTER : Nat := 0x80
def AICS_ERR_OP_NOT_SUPPORTED : Nat := 0x81
def AICS_ERR_MUTE_DISABLED : Nat := 0x82
def AICS_ERR_OUT_OF_RANGE : Nat := 0x83
def AICS_ERR_GAIN_MODE_NO_SUPPORT : Nat := 0x84

def AICS_CP_LEN : Nat := 0x02
def AICS_CP_SET_GAIN_LEN : Nat := 0x03

/-- C macro `AICS_INPUT_MODE_IMMUTABLE` (aics_internal.h line 27). -/
def AICS_INPUT_MODE_IMMUTABLE (mode : Nat) : Prop :=
  mode = AICS_MODE_MANUAL_ONLY ∨ mode = AICS_MODE_AUTO_ONLY

/-- C macro `AICS_INPUT_MODE_SETTABLE` (aics_internal.h line 31): note that
the source lists Manual-Only and Manual, not Manual and Auto. -/
def AICS_INPUT_MODE_SETTABLE (mode : Nat) : Prop :=
  mode = AICS_MODE_MANUAL_ONLY ∨ mode = AICS_MODE_MANUAL

instance (mode : Nat) : Decidable (AICS_INPUT_MODE_IMMUTABLE mode) := by
  unfold AICS_INPUT_MODE_IMMUTABLE
  infer_instance

instance (mode : Nat) : Decidable (AICS_INPUT_MODE_SETTABLE mode) := by
  unfold AICS_INPUT_MODE_SETTABLE
  infer_instance

/-- Input state characteristic value (`struct aics_state_t`). -/
structure AicsState where
  gain : Int
  mute : Nat
  mode : Nat
  change_counter : Nat
deriving DecidableEq

/-- Gain settings characteristic value (`struct aics_gain_settings_t`). -/
structure AicsGainSettings where
  units : Nat
  minimum : Int
  maximum : Int
deriving DecidableEq

/-- One AICS server instance (`struct bt_aics`), restricted to the fields
touched by the control-point handler. -/
structure AicsInst where
  state : AicsState
  gain_settings : AicsGainSettings
  cbState : Bool
deriving DecidableEq

/-- Observable side effects of `write_aics_control`. -/
inductive AicsEvent where
  | stateNotify (s : AicsState)
  | stateCbCall
deriving DecidableEq

/-- The per-opcode switch of `write_aics_control`: either an error byte, or
the updated state value plus the `notify` boolean; `none` is the `default`
branch. -/
def aicsOpcodeSwitch (inst : AicsInst) (data : List Nat) (opcode : Nat) :
    Option (Sum Nat (AicsState × Bool)) :=
  let s := inst.state
  match opcode with
  | 1 =>
      let gs := i8 (byte data 2)
      if gs < inst.gain_settings.minimum ∨ inst.gain_settings.maximum < gs then
        some (.inl AICS_ERR_OUT_OF_RANGE)
      else if AICS_INPUT_MODE_SETTABLE s.mode ∧ s.gain ≠ gs then
        some (.inr ({ s with gain := gs }, true))
      else some (.inr (s, false))
  | 2 =>
      if s.mute = AICS_STATE_MUTE_DISABLED then some (.inl AICS_ERR_MUTE_DISABLED)
      else if s.mute ≠ AICS_STATE_UNMUTED then
        some (.inr ({ s with mute := AICS_STATE_UNMUTED }, true))
      else some (.inr (s, false))
  | 3 =>
      if s.mute = AICS_STATE_MUTE_DISABLED then some (.inl AICS_ERR_MUTE_DISABLED)
      else if s.mute ≠ AICS_STATE_MUTED then
        some (.inr ({ s with mute := AICS_STATE_MUTED }, true))
      else some (.inr (s, false))
  | 4 =>
      if AICS_INPUT_MODE_IMMUTABLE s.mode then
        some (.inl AICS_ERR_GAIN_MODE_NO_SUPPORT)
      else if s.mode ≠ AICS_MODE_MANUAL then
        some (.inr ({ s with mode := AICS_MODE_MANUAL }, true))
      else some (.inr (s, false))
  | 5 =>
      if AICS_INPUT_MODE_IMMUTABLE s.mode then
        some (.inl AICS_ERR_GAIN_MODE_NO_SUPPORT)
      else if s.mode ≠ AICS_MODE_AUTO then
        some (.inr ({ s with mode := AICS_MODE_AUTO }, true))
      else some (.inr (s, false))
  | _ => none

/-- Shallow embedding of `write_aics_control` (aics.c lines 162-270). -/
def write_aics_control (inst : AicsInst) (off : Nat) (data : List Nat) :
    GattResult × AicsInst × List AicsEvent :=
  if off ≠ 0 then (.err BT_ATT_ERR_INVALID_OFFSET, inst, [])
  else if data.length = 0 then (.err BT_ATT_ERR_INVALID_ATTRIBUTE_LEN, inst, [])
  else
    let opcode := byte data 0
    if ¬ (AICS_OPCODE_SET_GAIN ≤ opcode ∧ opcode ≤ AICS_OPCODE_SET_AUTO) then
      (.err AICS_ERR_OP_NOT_SUPPORTED, inst, [])
    else if data.length < AICS_CP_LEN ∨
        (data.length = AICS_CP_SET_GAIN_LEN ∧ opcode ≠ AICS_OPCODE_SET_GAIN) ∨
        AICS_CP_SET_GAIN_LEN < data.length then
      (.err BT_ATT_ERR_INVALID_ATTRIBUTE_LEN, inst, [])
    else if byte data 1 ≠ inst.state.change_counter then
      (.err AICS_ERR_INVALID_COUNTER, inst, [])
    else
      match aicsOpcodeSwitch inst data opcode with
      | none => (.err AICS_ERR_OP_NOT_SUPPORTED, inst, [])
      | some (.inl e) => (.err e, inst, [])
      | some (.inr (s1, notify)) =>
        if notify then
          let s2 := { s1 with change_counter := (s1.change_counter + 1) % 256 }
          (.ok data.length, { inst with state := s2 },
           [AicsEvent.stateNotify s2] ++
             (if inst.cbState then [AicsEvent.stateCbCall] else []))
        else (.ok data.length, { inst with state := s1 }, [])

/-- Guard conjunction of `write_aics_control` up to (excluding) the
change-counter check. -/
def aicsPreCounterGuards (off : Nat) (data : List Nat) : Prop :=
  off = 0 ∧ data.length ≠ 0 ∧
    (AICS_OPCODE_SET_GAIN ≤ byte data 0 ∧ byte data 0 ≤ AICS_OPCODE_SET_AUTO) ∧
    ¬ (data.length < AICS_CP_LEN ∨
       (data.length = AICS_CP_SET_GAIN_LEN ∧ byte data 0 ≠ AICS_OPCODE_SET_GAIN) ∨
       AICS_CP_SET_GAIN_LEN < data.length)

instance (off : Nat) (data : List Nat) : Decidable (aicsPreCounterGuards off data) := by
  unfold aicsPreCounterGuards
  infer_instance

example :
    (write_aics_control ⟨⟨0, 0, AICS_MODE_MANUAL, 0⟩, ⟨1, -10, 10⟩, false⟩ 0
        [0x01, 0x00, 0x05]).2.1.state.gain = 5 := by decide

example :
    (write_aics_control ⟨⟨0, 0, AICS_MODE_AUTO, 0⟩, ⟨1, -10, 10⟩, false⟩ 0
        [0x01, 0x00, 0x05]).2.1.state.gain = 0 := by decide

example :
    (write_aics_control ⟨⟨0, AICS_STATE_MUTE_DISABLED, 2, 0⟩, ⟨1, -10, 10⟩, false⟩ 0
        [0x02, 0x00]).1 = .err AICS_ERR_MUTE_DISABLED := by decide

/-! ## CSIS set-lock engine (src/unnamed/part_000, CSIS section)

The lock state machine touches three fields of `struct csis_instance_t`:
`set_lock`, `lock_client_addr` and the 60-second `set_lock_timer`.  LE
addresses are modelled as `Nat`, with `0` standing for the all-zero address
(`server_dummy_addr` is the zeroed address, and a freshly initialised or
cleared `lock_client_addr` is also all zeros).  A `conn` argument is
`Option Nat`: `none` is a NULL connection (the server-side reentrant path),
`some a` a peer whose `bt_conn_get_dst` is `a`. -/

def BT_CSIP_RELEASE_VALUE : Nat := 0x01
def BT_CSIP_LOCK_VALUE : Nat := 0x02

/-- Modelled from the spec: the `BT_CSIP_ERROR_*` byte values come from
`csip.h`, which is not under src/; §8 of the spec gives Lock Denied = 0x82
and Lock Release Denied = 0x83, and §7 names an Invalid Lock Value error
whose byte is not stated (0x84 here; no claim depends on these bytes). -/
def BT_CSIP_ERROR_LOCK_DENIED : Nat := 0x82

/-- Modelled from the spec: see `BT_CSIP_ERROR_LOCK_DENIED`. -/
def BT_CSIP_ERROR_LOCK_RELEASE_DENIED : Nat := 0x83

/-- Modelled from the spec: see `BT_CSIP_ERROR_LOCK_DENIED`. -/
def BT_CSIP_ERROR_LOCK_INVAL_VALUE : Nat := 0x84

/-- The lock-relevant fields of `struct csis_instance_t`.  `timer_armed`
records whether the delayed work `set_lock_timer` is currently submitted. -/
structure CsisState where
  set_lock : Nat
  lock_client_addr : Nat
  timer_armed : Bool
deriving DecidableEq

/-- State after `bt_csis_init`: lock released, zeroed holder address, timer
not submitted. -/
def csisInit : CsisState := ⟨BT_CSIP_RELEASE_VALUE, 0, false⟩

/-- The helper `is_last_client_to_write`: a NULL conn compares the zeroed
`server_dummy_addr` against `lock_client_addr`. -/
def is_last_client_to_write (st : CsisState) (conn : Option Nat) : Prop :=
  (match conn with | some a => a | none => 0) = st.lock_client_addr

instance (st : CsisState) (conn : Option Nat) :
    Decidable (is_last_client_to_write st conn) := by
  unfold is_last_client_to_write
  infer_instance

/-- Shallow embedding of `write_set_lock` (src/unnamed/part_000 lines
1144-1205), restricted to the lock fields.  On the lock path the holder
address is recorded only when `conn` is non-NULL; on the release path the
address is zeroed and the timer cancelled. -/
def write_set_lock (st : CsisState) (conn : Option Nat) (off : Nat)
    (data : List Nat) : GattResult × CsisState :=
  if off ≠ 0 then (.err BT_ATT_ERR_INVALID_OFFSET, st)
  else if data.length ≠ 1 then (.err BT_ATT_ERR_INVALID_ATTRIBUTE_LEN, st)
  else
    let val := byte data 0
    if val ≠ BT_CSIP_RELEASE_VALUE ∧ val ≠ BT_CSIP_LOCK_VALUE then
      (.err BT_CSIP_ERROR_LOCK_INVAL_VALUE, st)
    else if st.set_lock = BT_CSIP_LOCK_VALUE ∧ val = BT_CSIP_LOCK_VALUE then
      (.err BT_CSIP_ERROR_LOCK_DENIED, st)
    else if st.set_lock = BT_CSIP_LOCK_VALUE ∧ ¬ is_last_client_to_write st conn then
      (.err BT_CSIP_ERROR_LOCK_RELEASE_DENIED, st)
    else if val = BT_CSIP_LOCK_VALUE then
      (.ok data.length,
       { set_lock := val,
         lock_client_addr :=
           match conn with | some a => a | none => st.lock_client_addr,
         timer_armed := true })
    else
      (.ok data.length, { set_lock := val, lock_client_addr := 0, timer_armed := false })

/-- Shallow embedding of `set_lock_timer_handler` (src/unnamed/part_000
lines 1222-1233): the expiring timer releases the lock but clears neither
the holder address nor (being the firing timer itself) anything else. -/
def set_lock_timer_handler (st : CsisState) : CsisState :=
  { st with set_lock := BT_CSIP_RELEASE_VALUE, timer_armed := false }

/-- Shallow embedding of the lock-relevant part of `csis_disconnected`
(src/unnamed/part_000 lines 1255-1295): a non-bonded peer that is the
current holder forces a release; the timer is not cancelled. -/
def csis_disconnected (st : CsisState) (addr : Nat) (bonded : Bool) : CsisState :=
  if bonded then st
  else if addr = st.lock_client_addr then
    { st with lock_client_addr := 0, set_lock := BT_CSIP_RELEASE_VALUE }
  else st

/-- Shallow embedding of `bt_csis_lock` (src/unnamed/part_000 lines
1556-1584): a forced release writes the released value directly (leaving
address and timer untouched); every other case forges a NULL-conn
control-point write through `write_set_lock`. -/
def bt_csis_lock (st : CsisState) (lock force : Bool) : CsisState :=
  if ¬ lock ∧ force then { st with set_lock := BT_CSIP_RELEASE_VALUE }
  else
    (write_set_lock st none 0
      [if lock then BT_CSIP_LOCK_VALUE else BT_CSIP_RELEASE_VALUE]).2

/-- One reachable step of the CSIS lock engine: a GATT lock/release write, a
server-side `bt_csis_lock` call, a set-lock timer expiry (only possible
while the timer is armed), or a peer disconnect. -/
inductive CsisStep : CsisState → CsisState → Prop where
  | write (st : CsisState) (conn : Option Nat) (off : Nat) (data : List Nat) :
      CsisStep st (write_set_lock st conn off data).2
  | serverLock (st : CsisState) (lock force : Bool) :
      CsisStep st (bt_csis_lock st lock force)
  | timeout (st : CsisState) : st.timer_armed = true →
      CsisStep st (set_lock_timer_handler st)
  | disconnect (st : CsisState) (addr : Nat) (bonded : Bool) :
      CsisStep st (csis_disconnected st addr bonded)

/-- States reachable from the post-`bt_csis_init` state. -/
inductive CsisReachable : CsisState → Prop where
  | init : CsisReachable csisInit
  | step {s s' : CsisState} : CsisReachable s → CsisStep s s' → CsisReachable s'

/-- The lock invariant as the spec states it:
`set_lock == Locked ⇔ lock_client_addr ≠ ∅ ∧ timer armed`. -/
def csisSpecLockInv (st : CsisState) : Prop :=
  st.set_lock = BT_CSIP_LOCK_VALUE ↔ st.lock_client_addr ≠ 0 ∧ st.timer_armed = true

instance (st : CsisState) : Decidable (csisSpecLockInv st) := by
  unfold csisSpecLockInv
  infer_instance

example :
    (write_set_lock csisInit (some 5) 0 [BT_CSIP_LOCK_VALUE]).2 =
      ⟨BT_CSIP_LOCK_VALUE, 5, true⟩ := by decide

example : (bt_csis_lock csisInit true false) = ⟨BT_CSIP_LOCK_VALUE, 0, true⟩ := by decide

/-! ## AICS client write-retry machine
(src/subsys/bluetooth/host/audio/aics_client.c) -/

/-- The client-side mirror fields used by the control-point write path
(`struct aics_instance_t`): the cached counter, the single write buffer
(opcode, counter, optional gain operand), the `busy` gate and whether the
state characteristic handle is known (non-zero). -/
structure AicsClientInst where
  busy : Bool
  change_counter : Nat
  write_buf : List Nat
  state_handle : Bool
deriving DecidableEq

/-- What `aics_client_write_aics_cp_cb` does after inspecting the write
completion: either it submitted an internal read of the input state, or it
cleared `busy` and notified the application callback with an error byte. -/
inductive CpCbAction where
  | issueRead
  | appCb (err : Nat)
deriving DecidableEq

/-- Shallow embedding of `aics_client_write_aics_cp_cb` (aics_client.c lines
368-401).  `readSubmitOk` tells whether the `bt_gatt_read` submission
succeeded (its return code is environment-provided). -/
def aics_client_write_aics_cp_cb (inst : AicsClientInst) (err : Nat)
    (readSubmitOk : Bool) : CpCbAction × AicsClientInst :=
  if err = AICS_ERR_INVALID_COUNTER ∧ inst.state_handle = true then
    if readSubmitOk then (.issueRead, inst)
    else (.appCb err, { inst with busy := false })
  else (.appCb err, { inst with busy := false })

/-- What `internal_read_input_state_cb` does: either it re-issued the
buffered control-point write, or it notified the application callback with
an error byte, or (error-free completion with no data) nothing. -/
inductive ReadCbAction where
  | rewrite
  | appCb (err : Nat)
  | noAction
deriving DecidableEq

/-- Shallow embedding of `internal_read_input_state_cb` (aics_client.c lines
306-365).  On a successful, well-sized read the cached `change_counter` is
updated from the response and the buffered write is re-issued through
`bt_aics_client_gain_set`/`aics_client_common_control`, which stamps the
fresh counter into the write buffer and sets `busy` again; `writeSubmitOk`
tells whether that `bt_gatt_write` submission succeeded.  A failed read, a
short read or a failed re-submission surfaces `BT_ATT_ERR_UNLIKELY` to the
application callback. -/
def internal_read_input_state_cb (inst : AicsClientInst) (err : Nat)
    (data : Option AicsState) (lengthOk writeSubmitOk : Bool) :
    ReadCbAction × AicsClientInst :=
  if err ≠ 0 then (.appCb BT_ATT_ERR_UNLIKELY, { inst with busy := false })
  else
    match data with
    | none => (.noAction, inst)
    | some st =>
      if lengthOk then
        if writeSubmitOk then
          (.rewrite,
           { inst with
               change_counter := st.change_counter,
               busy := true,
               write_buf :=
                 match inst.write_buf with
                 | op :: _ :: rest => op :: st.change_counter :: rest
                 | other => other })
        else (.appCb BT_ATT_ERR_UNLIKELY, { inst with busy := false })
      else (.appCb BT_ATT_ERR_UNLIKELY, { inst with busy := false })

/-- Environment response to one internal state read. -/
inductive ReadResp where
  | good (st : AicsState)
  | bad (err : Nat)
deriving DecidableEq

/-- Drives one client control-point transaction against a script of
completion events: `wrs` are the ATT error bytes of successive write
completions (0 = success) and `rds` the results of successive internal
state reads.  Returns the total number of control-point writes issued and
the error byte delivered to the application callback (`none` while the
transaction is still pending when the script runs out).  All GATT
submissions are assumed to succeed, matching an error-free transport. -/
def clientTransact (inst : AicsClientInst) :
    List Nat → List ReadResp → Nat × Option Nat
  | [], _ => (1, none)
  | e :: wrs, rds =>
    match aics_client_write_aics_cp_cb inst e true with
    | (.appCb a, _) => (1, some a)
    | (.issueRead, inst1) =>
      match rds with
      | [] => (1, none)
      | r :: rds' =>
        let pr : Nat × Option AicsState :=
          match r with
          | .good st => (0, some st)
          | .bad c => (c, none)
        match internal_read_input_state_cb inst1 pr.1 pr.2 true true with
        | (.appCb a, _) => (1, some a)
        | (.noAction, _) => (1, none)
        | (.rewrite, inst2) =>
          let t := clientTransact inst2 wrs rds'
          (t.1 + 1, t.2)

example :
    clientTransact ⟨true, 0, [0x02, 0x00], true⟩
      [AICS_ERR_INVALID_COUNTER, 0] [.good ⟨0, 0, 2, 7⟩] = (2, some 0) := by decide

example :
    clientTransact ⟨true, 0, [0x02, 0x00], true⟩
      [AICS_ERR_INVALID_COUNTER, AICS_ERR_INVALID_COUNTER, 0]
      [.good ⟨0, 0, 2, 7⟩, .good ⟨0, 0, 2, 9⟩] = (3, some 0) := by decide

/-! ## ASCS control-point response builder (src/unnamed/part_004,
`ascs_cp_rsp_add`) -/

/-- ASE control-point response codes used by `ascs_cp_rsp_add`; the source
comment fixes Not Supported = 0x01 and Truncated = 0x02 (the values the
num_ases overload keys on). -/
def BT_ASCS_RSP_NOT_SUPPORTED : Nat := 0x01
def BT_ASCS_RSP_TRUNCATED : Nat := 0x02

/-- One per-ASE response entry (`struct bt_ascs_cp_ase_rsp`). -/
structure AseRsp where
  id : Nat
  code : Nat
  reason : Nat
deriving DecidableEq

/-- The control-point response notification under construction in `rsp_buf`
(`struct bt_ascs_cp_rsp` followed by the appended per-ASE entries). -/
structure CpRsp where
  op : Nat
  num_ase : Nat
  entries : List AseRsp
deriving DecidableEq

/-- Shallow embedding of `ascs_cp_rsp_add` (src/unnamed/part_004 lines
82-118) acting on the buffer state; `none` is an empty `rsp_buf`, in which
case `ascs_cp_rsp_alloc` writes a header with `num_ase = 0` first. -/
def ascs_cp_rsp_add (buf : Option CpRsp) (id op code reason : Nat) :
    Option CpRsp :=
  let rsp := match buf with
    | none => { op := op, num_ase := 0, entries := [] }
    | some r => r
  if rsp.num_ase = 0xff then some rsp
  else if code = BT_ASCS_RSP_NOT_SUPPORTED ∨ code = BT_ASCS_RSP_TRUNCATED then
    some { rsp with num_ase := 0xff, entries := rsp.entries ++ [⟨id, code, reason⟩] }
  else
    some { rsp with num_ase := rsp.num_ase + 1,
                    entries := rsp.entries ++ [⟨id, code, reason⟩] }

/-- A whole response built from a list of `ascs_cp_rsp_add` calls starting
from an empty `rsp_buf` (as `ascs_cp_write` does per transaction). -/
def ascsRspOfCalls (calls : List (Nat × Nat × Nat × Nat)) : Option CpRsp :=
  calls.foldl (fun b c => ascs_cp_rsp_add b c.1 c.2.1 c.2.2.1 c.2.2.2) none

example :
    ascsRspOfCalls [(1, 1, 0, 0), (2, 1, 1, 0), (3, 1, 0, 0)] =
      some ⟨1, 0xff, [⟨1, 0, 0⟩, ⟨2, 1, 0⟩]⟩ := by decide

/-! ## Branch lemmas for the three control-point handlers -/

lemma vcs_err_of_offset {inst : VcsInst} {off : Nat} {data : List Nat}
    (h : off ≠ 0) :
    write_vcs_control inst off data = (.err BT_ATT_ERR_INVALID_OFFSET, inst, []) := by
  simp [write_vcs_control, h]

lemma vcs_err_of_len0 {inst : VcsInst} {data : List Nat}
    (h2 : data.length = 0) :
    write_vcs_control inst 0 data = (.err BT_ATT_ERR_INVALID_ATTRIBUTE_LEN, inst, []) := by
  simp [write_vcs_control, h2]

lemma vcs_err_of_opcode {inst : VcsInst} {data : List Nat}
    (h2 : data.length ≠ 0) (h3 : VCS_OPCODE_MUTE < byte data 0) :
    write_vcs_control inst 0 data = (.err VCS_ERR_OP_NOT_SUPPORTED, inst, []) := by
  simp [write_vcs_control, h2, h3]

lemma vcs_err_of_badlen {inst : VcsInst} {data : List Nat}
    (h2 : data.length ≠ 0) (h3 : byte data 0 ≤ VCS_OPCODE_MUTE)
    (h4 : data.length < VCS_CP_LEN ∨
      (data.length = VCS_CP_ABS_VOL_LEN ∧ byte data 0 ≠ VCS_OPCODE_SET_ABS_VOL) ∨
      VCS_CP_ABS_VOL_LEN < data.length) :
    write_vcs_control inst 0 data = (.err BT_ATT_ERR_INVALID_ATTRIBUTE_LEN, inst, []) := by
  simp [write_vcs_control, h2, Nat.not_lt.mpr h3, h4]

lemma vcs_err_of_counter {inst : VcsInst} {off : Nat} {data : List Nat}
    (hg : vcsPreCounterGuards off data)
    (hc : byte data 1 ≠ inst.state.change_counter) :
    write_vcs_control inst off data = (.err VCS_ERR_INVALID_COUNTER, inst, []) := by
  obtain ⟨h1, h2, h3, h4⟩ := hg
  subst h1
  simp [write_vcs_control, h2, Nat.not_lt.mpr h3, h4, hc]

lemma vcs_switch_isSome (inst : VcsInst) (data : List Nat) {op : Nat}
    (h3 : op ≤ VCS_OPCODE_MUTE) :
    ∃ y, vcsOpcodeSwitch inst data op = some y := by
  simp only [VCS_OPCODE_MUTE] at h3
  unfold vcsOpcodeSwitch
  interval_cases op <;> exact ⟨_, rfl⟩

lemma vcs_pass_eq {inst : VcsInst} {off : Nat} {data : List Nat}
    {s1 : VcsState} {notify vc : Bool}
    (hg : vcsPreCounterGuards off data)
    (hc : byte data 1 = inst.state.change_counter)
    (hy : vcsOpcodeSwitch inst data (byte data 0) = some (s1, notify, vc)) :
    write_vcs_control inst off data =
      (let inst1 : VcsInst :=
        if notify then
          { inst with state := { s1 with change_counter := (s1.change_counter + 1) % 256 } }
        else { inst with state := s1 }
       let evs1 : List VcsEvent :=
        if notify then
          [VcsEvent.stateNotify inst1.state] ++
            (if vcsCbStateSet inst then [VcsEvent.stateCbCall] else [])
        else []
       if vc ∧ inst1.flags = 0 then
         (.ok data.length, { inst1 with flags := 1 },
          evs1 ++ [VcsEvent.flagsNotify 1] ++
            (if vcsCbStateSet inst then
               [VcsEvent.flagsCbCall (!(vcsCbFlagsSet inst))] else []))
       else (.ok data.length, inst1, evs1)) := by
  obtain ⟨h1, h2, h3, h4⟩ := hg
  subst h1
  simp [write_vcs_control, h2, Nat.not_lt.mpr h3, h4, hc, hy]

lemma vcs_ok_of_pass {inst : VcsInst} {off : Nat} {data : List Nat}
    (hg : vcsPreCounterGuards off data)
    (hc : byte data 1 = inst.state.change_counter) :
    (write_vcs_control inst off data).1 = .ok data.length := by
  obtain ⟨y, hy⟩ := vcs_switch_isSome inst data hg.2.2.1
  obtain ⟨s1, notify, vc⟩ := y
  rw [vcs_pass_eq hg hc hy]
  by_cases hl : (vc : Prop) ∧
      (if notify then
        { inst with state := { s1 with change_counter := (s1.change_counter + 1) % 256 } }
       else { inst with state := s1 }).flags = 0 <;>
    simp [hl]

lemma vocs_err_of_len0 {inst : VocsInst} {off : Nat} {data : List Nat}
    (h2 : data.length = 0) :
    write_vocs_control inst off data = (.err BT_ATT_ERR_INVALID_ATTRIBUTE_LEN, inst, []) := by
  simp [write_vocs_control, h2]

lemma vocs_err_of_opcode {inst : VocsInst} {off : Nat} {data : List Nat}
    (h2 : data.length ≠ 0) (h3 : byte data 0 ≠ VOCS_OPCODE_SET_OFFSET) :
    write_vocs_control inst off data = (.err VOCS_ERR_OP_NOT_SUPPORTED, inst, []) := by
  simp [write_vocs_control, h2, h3]

lemma vocs_err_of_offset {inst : VocsInst} {off : Nat} {data : List Nat}
    (h2 : data.length ≠ 0) (h3 : byte data 0 = VOCS_OPCODE_SET_OFFSET)
    (h1 : off ≠ 0) :
    write_vocs_control inst off data = (.err BT_ATT_ERR_INVALID_OFFSET, inst, []) := by
  simp [write_vocs_control, h2, h3, h1]

lemma vocs_err_of_badlen {inst : VocsInst} {data : List Nat}
    (h2 : data.length ≠ 0) (h3 : byte data 0 = VOCS_OPCODE_SET_OFFSET)
    (h4 : data.length ≠ 4) :
    write_vocs_control inst 0 data = (.err BT_ATT_ERR_INVALID_ATTRIBUTE_LEN, inst, []) := by
  simp [write_vocs_control, h2, h3, h4]

lemma vocs_err_of_counter {inst : VocsInst} {off : Nat} {data : List Nat}
    (hg : vocsPreCounterGuards off data)
    (hc : byte data 1 ≠ inst.state.change_counter) :
    write_vocs_control inst off data = (.err VOCS_ERR_INVALID_COUNTER, inst, []) := by
  obtain ⟨h2, h3, h1, h4⟩ := hg
  subst h1
  simp [write_vocs_control, h2, h3, h4, hc]

lemma vocs_err_of_range {inst : VocsInst} {off : Nat} {data : List Nat}
    (hg : vocsPreCounterGuards off data)
    (hc : byte data 1 = inst.state.change_counter)
    (hr : 255 < i16ofLE (byte data 2) (byte data 3) ∨
      i16ofLE (byte data 2) (byte data 3) < -255) :
    write_vocs_control inst off data = (.err VOCS_ERR_OUT_OF_RANGE, inst, []) := by
  obtain ⟨h2, h3, h1, h4⟩ := hg
  subst h1
  simp [write_vocs_control, h2, h3, h4, hc, hr]

lemma vocs_ok_of_change {inst : VocsInst} {off : Nat} {data : List Nat}
    (hg : vocsPreCounterGuards off data)
    (hc : byte data 1 = inst.state.change_counter)
    (hr : ¬ (255 < i16ofLE (byte data 2) (byte data 3) ∨
      i16ofLE (byte data 2) (byte data 3) < -255))
    (hne : inst.state.offset ≠ i16ofLE (byte data 2) (byte data 3)) :
    write_vocs_control inst off data =
      (.ok data.length,
       ⟨⟨i16ofLE (byte data 2) (byte data 3), (inst.state.change_counter + 1) % 256⟩,
        inst.cbState⟩,
       [VocsEvent.stateNotify
          ⟨i16ofLE (byte data 2) (byte data 3), (inst.state.change_counter + 1) % 256⟩] ++
         (if inst.cbState then [VocsEvent.stateCbCall] else [])) := by
  obtain ⟨h2, h3, h1, h4⟩ := hg
  subst h1
  simp [write_vocs_control, h2, h3, h4, hc, hr, hne]

lemma vocs_ok_of_same {inst : VocsInst} {off : Nat} {data : List Nat}
    (hg : vocsPreCounterGuards off data)
    (hc : byte data 1 = inst.state.change_counter)
    (hr : ¬ (255 < i16ofLE (byte data 2) (byte data 3) ∨
      i16ofLE (byte data 2) (byte data 3) < -255))
    (heq : inst.state.offset = i16ofLE (byte data 2) (byte data 3)) :
    write_vocs_control inst off data = (.ok data.length, inst, []) := by
  obtain ⟨h2, h3, h1, h4⟩ := hg
  subst h1
  simp [write_vocs_control, h2, h3, h4, hc, hr, heq]

lemma aics_err_of_offset {inst : AicsInst} {off : Nat} {data : List Nat}
    (h : off ≠ 0) :
    write_aics_control inst off data = (.err BT_ATT_ERR_INVALID_OFFSET, inst, []) := by
  simp [write_aics_control, h]

lemma aics_err_of_len0 {inst : AicsInst} {data : List Nat}
    (h2 : data.length = 0) :
    write_aics_control inst 0 data = (.err BT_ATT_ERR_INVALID_ATTRIBUTE_LEN, inst, []) := by
  simp [write_aics_control, h2]

lemma aics_err_of_opcode {inst : AicsInst} {data : List Nat}
    (h2 : data.length ≠ 0)
    (h3 : ¬ (AICS_OPCODE_SET_GAIN ≤ byte data 0 ∧
      byte data 0 ≤ AICS_OPCODE_SET_AUTO)) :
    write_aics_control inst 0 data = (.err AICS_ERR_OP_NOT_SUPPORTED, inst, []) := by
  simp only [write_aics_control]
  simp [h2, h3]

lemma aics_err_of_badlen {inst : AicsInst} {data : List Nat}
    (h2 : data.length ≠ 0)
    (h3 : AICS_OPCODE_SET_GAIN ≤ byte data 0 ∧ byte data 0 ≤ AICS_OPCODE_SET_AUTO)
    (h4 : data.length < AICS_CP_LEN ∨
      (data.length = AICS_CP_SET_GAIN_LEN ∧ byte data 0 ≠ AICS_OPCODE_SET_GAIN) ∨
      AICS_CP_SET_GAIN_LEN < data.length) :
    write_aics_control inst 0 data = (.err BT_ATT_ERR_INVALID_ATTRIBUTE_LEN, inst, []) := by
  simp [write_aics_control, h2, h3, h4]

lemma aics_err_of_counter {inst : AicsInst} {off : Nat} {data : List Nat}
    (hg : aicsPreCounterGuards off data)
    (hc : byte data 1 ≠ inst.state.change_counter) :
    write_aics_control inst off data = (.err AICS_ERR_INVALID_COUNTER, inst, []) := by
  obtain ⟨h1, h2, h3, h4⟩ := hg
  subst h1
  simp [write_aics_control, h2, h3, h4, hc]

lemma aics_switch_isSome (inst : AicsInst) (data : List Nat) {op : Nat}
    (h3 : AICS_OPCODE_SET_GAIN ≤ op ∧ op ≤ AICS_OPCODE_SET_AUTO) :
    ∃ y, aicsOpcodeSwitch inst data op = some y := by
  simp only [AICS_OPCODE_SET_GAIN, AICS_OPCODE_SET_AUTO] at h3
  obtain ⟨h3a, h3b⟩ := h3
  interval_cases op <;>
    (simp only [aicsOpcodeSwitch]; split_ifs <;> exact ⟨_, rfl⟩)

lemma aics_switch_err_mem {inst : AicsInst} {data : List Nat} {op e : Nat}
    (hy : aicsOpcodeSwitch inst data op = some (.inl e)) :
    e = AICS_ERR_MUTE_DISABLED ∨ e = AICS_ERR_OUT_OF_RANGE ∨
      e = AICS_ERR_GAIN_MODE_NO_SUPPORT := by
  unfold aicsOpcodeSwitch at hy
  split at hy <;> dsimp only [] at hy <;> first
    | (split_ifs at hy <;> simp_all)
    | simp_all

lemma aics_pass_err {inst : AicsInst} {off : Nat} {data : List Nat} {e : Nat}
    (hg : aicsPreCounterGuards off data)
    (hc : byte data 1 = inst.state.change_counter)
    (hy : aicsOpcodeSwitch inst data (byte data 0) = some (.inl e)) :
    write_aics_control inst off data = (.err e, inst, []) := by
  obtain ⟨h1, h2, h3, h4⟩ := hg
  subst h1
  simp [write_aics_control, h2, h3, h4, hc, hy]

lemma aics_pass_commit {inst : AicsInst} {off : Nat} {data : List Nat}
    {s1 : AicsState} {notify : Bool}
    (hg : aicsPreCounterGuards off data)
    (hc : byte data 1 = inst.state.change_counter)
    (hy : aicsOpcodeSwitch inst data (byte data 0) = some (.inr (s1, notify))) :
    write_aics_control inst off data =
      (if notify then
        (.ok data.length,
         { inst with state := { s1 with change_counter := (s1.change_counter + 1) % 256 } },
         [AicsEvent.stateNotify { s1 with change_counter := (s1.change_counter + 1) % 256 }] ++
           (if inst.cbState then [AicsEvent.stateCbCall] else []))
      else (.ok data.length, { inst with state := s1 }, [])) := by
  obtain ⟨h1, h2, h3, h4⟩ := hg
  subst h1
  by_cases hn : notify = true <;>
    simp [write_aics_control, h2, h3, h4, hc, hy, hn]

lemma vcs_result_err_of_not_guards {inst : VcsInst} {off : Nat} {data : List Nat}
    (hg : ¬ vcsPreCounterGuards off data) :
    ∃ e, write_vcs_control inst off data = (.err e, inst, []) := by
  by_cases h1 : off = 0
  · subst h1
    by_cases h2 : data.length = 0
    · exact ⟨_, vcs_err_of_len0 h2⟩
    · by_cases h3 : byte data 0 ≤ VCS_OPCODE_MUTE
      · by_cases h4 : data.length < VCS_CP_LEN ∨
          (data.length = VCS_CP_ABS_VOL_LEN ∧ byte data 0 ≠ VCS_OPCODE_SET_ABS_VOL) ∨
          VCS_CP_ABS_VOL_LEN < data.length
        · exact ⟨_, vcs_err_of_badlen h2 h3 h4⟩
        · exact absurd ⟨rfl, h2, h3, h4⟩ hg
      · exact ⟨_, vcs_err_of_opcode h2 (Nat.lt_of_not_le h3)⟩
  · exact ⟨_, vcs_err_of_offset h1⟩

lemma vocs_result_err_of_not_guards {inst : VocsInst} {off : Nat} {data : List Nat}
    (hg : ¬ vocsPreCounterGuards off data) :
    ∃ e, write_vocs_control inst off data = (.err e, inst, []) := by
  by_cases h2 : data.length = 0
  · exact ⟨_, vocs_err_of_len0 h2⟩
  · by_cases h3 : byte data 0 = VOCS_OPCODE_SET_OFFSET
    · by_cases h1 : off = 0
      · by_cases h4 : data.length = 4
        · exact absurd ⟨h2, h3, h1, h4⟩ hg
        · subst h1
          exact ⟨_, vocs_err_of_badlen h2 h3 h4⟩
      · exact ⟨_, vocs_err_of_offset h2 h3 h1⟩
    · exact ⟨_, vocs_err_of_opcode h2 h3⟩

lemma aics_result_err_of_not_guards {inst : AicsInst} {off : Nat} {data : List Nat}
    (hg : ¬ aicsPreCounterGuards off data) :
    ∃ e, write_aics_control inst off data = (.err e, inst, []) := by
  by_cases h1 : off = 0
  · subst h1
    by_cases h2 : data.length = 0
    · exact ⟨_, aics_err_of_len0 h2⟩
    · by_cases h3 : AICS_OPCODE_SET_GAIN ≤ byte data 0 ∧
        byte data 0 ≤ AICS_OPCODE_SET_AUTO
      · by_cases h4 : data.length < AICS_CP_LEN ∨
          (data.length = AICS_CP_SET_GAIN_LEN ∧ byte data 0 ≠ AICS_OPCODE_SET_GAIN) ∨
          AICS_CP_SET_GAIN_LEN < data.length
        · exact ⟨_, aics_err_of_badlen h2 h3 h4⟩
        · exact absurd ⟨rfl, h2, h3, h4⟩ hg
      · exact ⟨_, aics_err_of_opcode h2 h3⟩
  · exact ⟨_, aics_err_of_offset h1⟩

lemma vcs_switch_commit_spec {inst : VcsInst} {data : List Nat} {op : Nat}
    {s1 : VcsState} {notify vc : Bool}
    (hy : vcsOpcodeSwitch inst data op = some (s1, notify, vc)) :
    s1.change_counter = inst.state.change_counter ∧
      (notify = false → s1 = inst.state) := by
  unfold vcsOpcodeSwitch at hy
  split at hy <;> dsimp only [] at hy <;> (try split_ifs at hy) <;>
    first
      | (simp only [Option.some.injEq, Prod.mk.injEq] at hy
         obtain ⟨rfl, rfl, rfl⟩ := hy
         refine ⟨rfl, fun hn => ?_⟩
         first | rfl | simp at hn)
      | simp_all

lemma aics_switch_commit_spec {inst : AicsInst} {data : List Nat} {op : Nat}
    {s1 : AicsState} {notify : Bool}
    (hy : aicsOpcodeSwitch inst data op = some (.inr (s1, notify))) :
    s1.change_counter = inst.state.change_counter ∧
      (notify = false → s1 = inst.state) := by
  unfold aicsOpcodeSwitch at hy
  split at hy <;> dsimp only [] at hy <;> (try split_ifs at hy) <;>
    first
      | (simp only [Option.some.injEq, Sum.inr.injEq, Prod.mk.injEq] at hy
         obtain ⟨rfl, rfl⟩ := hy
         refine ⟨rfl, fun hn => ?_⟩
         first | rfl | simp at hn)
      | simp_all

lemma succ_mod_256_ne (c : Nat) : (c + 1) % 256 ≠ c := by omega

/-! ## Claim theorems -/

/-- C5: a server control-point write (VCS, VOCS or AICS) fails with the
service-specific Invalid Change Counter error (0x80) if and only if it
passes the offset, opcode and length guards and its counter operand differs
from the current `change_counter`; on this error the instance is unchanged
and no notification or callback is emitted. -/
theorem C5_invalid_counter_iff :
    (∀ (inst : VcsInst) (off : Nat) (data : List Nat),
      ((write_vcs_control inst off data).1 = .err VCS_ERR_INVALID_COUNTER ↔
        vcsPreCounterGuards off data ∧ byte data 1 ≠ inst.state.change_counter) ∧
      ((write_vcs_control inst off data).1 = .err VCS_ERR_INVALID_COUNTER →
        (write_vcs_control inst off data).2 = (inst, []))) ∧
    (∀ (inst : VocsInst) (off : Nat) (data : List Nat),
      ((write_vocs_control inst off data).1 = .err VOCS_ERR_INVALID_COUNTER ↔
        vocsPreCounterGuards off data ∧ byte data 1 ≠ inst.state.change_counter) ∧
      ((write_vocs_control inst off data).1 = .err VOCS_ERR_INVALID_COUNTER →
        (write_vocs_control inst off data).2 = (inst, []))) ∧
    (∀ (inst : AicsInst) (off : Nat) (data : List Nat),
      ((write_aics_control inst off data).1 = .err AICS_ERR_INVALID_COUNTER ↔
        aicsPreCounterGuards off data ∧ byte data 1 ≠ inst.state.change_counter) ∧
      ((write_aics_control inst off data).1 = .err AICS_ERR_INVALID_COUNTER →
        (write_aics_control inst off data).2 = (inst, []))) := by
  refine ⟨fun inst off data => ?_, fun inst off data => ?_, fun inst off data => ?_⟩
  · by_cases hg : vcsPreCounterGuards off data
    · by_cases hc : byte data 1 = inst.state.change_counter
      · rw [@vcs_ok_of_pass inst off data hg hc]
        simp [hc]
      · rw [vcs_err_of_counter hg hc]
        simp [hg, hc]
    · have hng : ¬ (vcsPreCounterGuards off data ∧
          byte data 1 ≠ inst.state.change_counter) := fun h => hg h.1
      by_cases h1 : off = 0
      · subst h1
        by_cases h2 : data.length = 0
        · rw [@vcs_err_of_len0 inst data h2]
          simp [BT_ATT_ERR_INVALID_ATTRIBUTE_LEN, VCS_ERR_INVALID_COUNTER, hng]
        · by_cases h3 : byte data 0 ≤ VCS_OPCODE_MUTE
          · by_cases h4 : data.length < VCS_CP_LEN ∨
              (data.length = VCS_CP_ABS_VOL_LEN ∧
                byte data 0 ≠ VCS_OPCODE_SET_ABS_VOL) ∨
              VCS_CP_ABS_VOL_LEN < data.length
            · rw [vcs_err_of_badlen h2 h3 h4]
              simp [BT_ATT_ERR_INVALID_ATTRIBUTE_LEN, VCS_ERR_INVALID_COUNTER, hng]
            · exact absurd ⟨rfl, h2, h3, h4⟩ hg
          · rw [vcs_err_of_opcode h2 (Nat.lt_of_not_le h3)]
            simp [VCS_ERR_OP_NOT_SUPPORTED, VCS_ERR_INVALID_COUNTER, hng]
      · rw [vcs_err_of_offset h1]
        simp [BT_ATT_ERR_INVALID_OFFSET, VCS_ERR_INVALID_COUNTER, hng]
  · by_cases hg : vocsPreCounterGuards off data
    · by_cases hc : byte data 1 = inst.state.change_counter
      · by_cases hr : 255 < i16ofLE (byte data 2) (byte data 3) ∨
          i16ofLE (byte data 2) (byte data 3) < -255
        · rw [vocs_err_of_range hg hc hr]
          simp [VOCS_ERR_OUT_OF_RANGE, VOCS_ERR_INVALID_COUNTER, hc]
        · by_cases hne : inst.state.offset = i16ofLE (byte data 2) (byte data 3)
          · rw [vocs_ok_of_same hg hc hr hne]
            simp [hc]
          · rw [vocs_ok_of_change hg hc hr hne]
            simp [hc]
      · rw [vocs_err_of_counter hg hc]
        simp [hg, hc]
    · have hng : ¬ (vocsPreCounterGuards off data ∧
          byte data 1 ≠ inst.state.change_counter) := fun h => hg h.1
      by_cases h2 : data.length = 0
      · rw [@vocs_err_of_len0 inst off data h2]
        simp [BT_ATT_ERR_INVALID_ATTRIBUTE_LEN, VOCS_ERR_INVALID_COUNTER, hng]
      · by_cases h3 : byte data 0 = VOCS_OPCODE_SET_OFFSET
        · by_cases h1 : off = 0
          · by_cases h4 : data.length = 4
            · exact absurd ⟨h2, h3, h1, h4⟩ hg
            · subst h1
              rw [vocs_err_of_badlen h2 h3 h4]
              simp [BT_ATT_ERR_INVALID_ATTRIBUTE_LEN, VOCS_ERR_INVALID_COUNTER, hng]
          · rw [vocs_err_of_offset h2 h3 h1]
            simp [BT_ATT_ERR_INVALID_OFFSET, VOCS_ERR_INVALID_COUNTER, hng]
        · rw [vocs_err_of_opcode h2 h3]
          simp [VOCS_ERR_OP_NOT_SUPPORTED, VOCS_ERR_INVALID_COUNTER, hng]
  · by_cases hg : aicsPreCounterGuards off data
    · by_cases hc : byte data 1 = inst.state.change_counter
      · obtain ⟨y, hy⟩ := aics_switch_isSome inst data hg.2.2.1
        rcases y with e | ⟨s1, notify⟩
        · have he := aics_switch_err_mem hy
          rw [aics_pass_err hg hc hy]
          rcases he with he | he | he <;> subst he <;>
            simp [AICS_ERR_MUTE_DISABLED, AICS_ERR_OUT_OF_RANGE,
              AICS_ERR_GAIN_MODE_NO_SUPPORT, AICS_ERR_INVALID_COUNTER, hc]
        · rw [aics_pass_commit hg hc hy]
          by_cases hn : notify = true <;> simp [hn, hc]
      · rw [aics_err_of_counter hg hc]
        simp [hg, hc]
    · have hng : ¬ (aicsPreCounterGuards off data ∧
          byte data 1 ≠ inst.state.change_counter) := fun h => hg h.1
      by_cases h1 : off = 0
      · subst h1
        by_cases h2 : data.length = 0
        · rw [aics_err_of_len0 h2]
          simp [BT_ATT_ERR_INVALID_ATTRIBUTE_LEN, AICS_ERR_INVALID_COUNTER, hng]
        · by_cases h3 : AICS_OPCODE_SET_GAIN ≤ byte data 0 ∧
            byte data 0 ≤ AICS_OPCODE_SET_AUTO
          · by_cases h4 : data.length < AICS_CP_LEN ∨
              (data.length = AICS_CP_SET_GAIN_LEN ∧
                byte data 0 ≠ AICS_OPCODE_SET_GAIN) ∨
              AICS_CP_SET_GAIN_LEN < data.length
            · rw [aics_err_of_badlen h2 h3 h4]
              simp [BT_ATT_ERR_INVALID_ATTRIBUTE_LEN, AICS_ERR_INVALID_COUNTER, hng]
            · exact absurd ⟨rfl, h2, h3, h4⟩ hg
          · rw [aics_err_of_opcode h2 h3]
            simp [AICS_ERR_OP_NOT_SUPPORTED, AICS_ERR_INVALID_COUNTER, hng]
      · rw [aics_err_of_offset h1]
        simp [BT_ATT_ERR_INVALID_OFFSET, AICS_ERR_INVALID_COUNTER, hng]

/-- C5 witness: spec scenario 3 — a VCS SetAbsVol write carrying stale
counter 0 while the server counter is 2 leaves the instance unchanged. -/
theorem C5_invalid_counter_witness :
    (write_vcs_control ⟨⟨100, 0, 2⟩, 0, 1, none⟩ 0 [0x04, 0x00, 50]).2 =
      (⟨⟨100, 0, 2⟩, 0, 1, none⟩, []) :=
  (C5_invalid_counter_iff.1 ⟨⟨100, 0, 2⟩, 0, 1, none⟩ 0 [0x04, 0x00, 50]).2
    (by decide)

/-- C4 counterexample: a guard-passing VCS SetAbsVol write whose computed
state equals the current state returns success and leaves the state
untouched — yet it still mutates the `flags` field from 0 to 1 and emits a
Flags notification, contradicting the claim that in this case no field is
mutated and no notification is emitted. -/
theorem C4_idem_commit_counterexample :
    (write_vcs_control ⟨⟨100, 0, 0⟩, 0, 1, none⟩ 0 [0x04, 0x00, 100]).1 = .ok 3 ∧
    (write_vcs_control ⟨⟨100, 0, 0⟩, 0, 1, none⟩ 0 [0x04, 0x00, 100]).2.1.state =
      ⟨100, 0, 0⟩ ∧
    (write_vcs_control ⟨⟨100, 0, 0⟩, 0, 1, none⟩ 0 [0x04, 0x00, 100]).2.1.flags = 1 ∧
    (write_vcs_control ⟨⟨100, 0, 0⟩, 0, 1, none⟩ 0 [0x04, 0x00, 100]).2.2 =
      [VcsEvent.flagsNotify 1] := by decide

/-- C4 (amended): for every server control-point write that returns
success, either the state value is unchanged — then the change counter is
unchanged and no state notification is emitted (for VOCS and AICS nothing
at all is mutated or emitted; a VCS volume-changing opcode may still latch
the separate `flags` field and emit a Flags notification) — or the state
value changed, the change counter became exactly (old + 1) mod 256, and a
state notification carrying the new state was emitted. -/
theorem C4_idem_commit_amended :
    (∀ (inst : VcsInst) (off : Nat) (data : List Nat) (n : Nat),
      (write_vcs_control inst off data).1 = .ok n →
      ((write_vcs_control inst off data).2.1.state = inst.state ∧
        ∀ s, VcsEvent.stateNotify s ∉ (write_vcs_control inst off data).2.2) ∨
      ((write_vcs_control inst off data).2.1.state ≠ inst.state ∧
        (write_vcs_control inst off data).2.1.state.change_counter =
          (inst.state.change_counter + 1) % 256 ∧
        VcsEvent.stateNotify (write_vcs_control inst off data).2.1.state ∈
          (write_vcs_control inst off data).2.2)) ∧
    (∀ (inst : VocsInst) (off : Nat) (data : List Nat) (n : Nat),
      (write_vocs_control inst off data).1 = .ok n →
      ((write_vocs_control inst off data).2 = (inst, [])) ∨
      ((write_vocs_control inst off data).2.1.state ≠ inst.state ∧
        (write_vocs_control inst off data).2.1.state.change_counter =
          (inst.state.change_counter + 1) % 256 ∧
        VocsEvent.stateNotify (write_vocs_control inst off data).2.1.state ∈
          (write_vocs_control inst off data).2.2)) ∧
    (∀ (inst : AicsInst) (off : Nat) (data : List Nat) (n : Nat),
      (write_aics_control inst off data).1 = .ok n →
      ((write_aics_control inst off data).2 = (inst, [])) ∨
      ((write_aics_control inst off data).2.1.state ≠ inst.state ∧
        (write_aics_control inst off data).2.1.state.change_counter =
          (inst.state.change_counter + 1) % 256 ∧
        AicsEvent.stateNotify (write_aics_control inst off data).2.1.state ∈
          (write_aics_control inst off data).2.2)) := by
  refine ⟨fun inst off data n hok => ?_, fun inst off data n hok => ?_,
    fun inst off data n hok => ?_⟩
  · by_cases hg : vcsPreCounterGuards off data
    · by_cases hc : byte data 1 = inst.state.change_counter
      · obtain ⟨⟨s1, notify, vc⟩, hy⟩ := vcs_switch_isSome inst data hg.2.2.1
        obtain ⟨hctr, hsame⟩ := vcs_switch_commit_spec hy
        rw [vcs_pass_eq hg hc hy]
        by_cases hn : notify = true
        · subst hn
          right
          have hne : ¬ ({ s1 with change_counter := (s1.change_counter + 1) % 256 } :
              VcsState) = inst.state := by
            intro heq
            have hpr := congrArg VcsState.change_counter heq
            simp only [hctr] at hpr
            exact succ_mod_256_ne inst.state.change_counter hpr
          refine ⟨?_, ?_, ?_⟩ <;>
            (dsimp only []; split_ifs <;> simp_all [hctr])
        · rw [Bool.not_eq_true] at hn
          subst hn
          left
          have hs1 : s1 = inst.state := hsame rfl
          subst hs1
          constructor
          · dsimp only []
            split_ifs <;> simp_all
          · intro s
            dsimp only []
            split_ifs <;> simp_all
      · rw [vcs_err_of_counter hg hc] at hok
        exact absurd hok (by simp)
    · obtain ⟨e, he⟩ := @vcs_result_err_of_not_guards inst off data hg
      rw [he] at hok
      exact absurd hok (by simp)
  · by_cases hg : vocsPreCounterGuards off data
    · by_cases hc : byte data 1 = inst.state.change_counter
      · by_cases hr : 255 < i16ofLE (byte data 2) (byte data 3) ∨
          i16ofLE (byte data 2) (byte data 3) < -255
        · rw [vocs_err_of_range hg hc hr] at hok
          exact absurd hok (by simp)
        · by_cases hne : inst.state.offset = i16ofLE (byte data 2) (byte data 3)
          · rw [vocs_ok_of_same hg hc hr hne]
            exact Or.inl rfl
          · rw [vocs_ok_of_change hg hc hr hne]
            right
            refine ⟨?_, rfl, by simp⟩
            intro hcontra
            exact succ_mod_256_ne inst.state.change_counter
              (congrArg VocsState.change_counter hcontra)
      · rw [vocs_err_of_counter hg hc] at hok
        exact absurd hok (by simp)
    · obtain ⟨e, he⟩ := @vocs_result_err_of_not_guards inst off data hg
      rw [he] at hok
      exact absurd hok (by simp)
  · by_cases hg : aicsPreCounterGuards off data
    · by_cases hc : byte data 1 = inst.state.change_counter
      · obtain ⟨y, hy⟩ := aics_switch_isSome inst data hg.2.2.1
        rcases y with e | ⟨s1, notify⟩
        · rw [aics_pass_err hg hc hy] at hok
          exact absurd hok (by simp)
        · obtain ⟨hctr, hsame⟩ := aics_switch_commit_spec hy
          rw [aics_pass_commit hg hc hy]
          by_cases hn : notify = true
          · subst hn
            right
            simp only [if_true, reduceIte]
            refine ⟨?_, by simp [hctr], by simp⟩
            intro hcontra
            have := congrArg AicsState.change_counter hcontra
            simp [hctr] at this
            exact succ_mod_256_ne inst.state.change_counter this
          · rw [Bool.not_eq_true] at hn
            subst hn
            left
            have hs1 : s1 = inst.state := hsame rfl
            subst hs1
            simp
      · rw [aics_err_of_counter hg hc] at hok
        exact absurd hok (by simp)
    · obtain ⟨e, he⟩ := @aics_result_err_of_not_guards inst off data hg
      rw [he] at hok
      exact absurd hok (by simp)

/-- C4 witness: spec scenario 2 — SetAbsVol(200) under matching counter 1
lands in the changed branch with counter 2 and a state notification. -/
theorem C4_idem_commit_witness :
    ((write_vcs_control ⟨⟨101, 0, 1⟩, 1, 1, none⟩ 0 [0x04, 0x01, 200]).2.1.state =
        (⟨101, 0, 1⟩ : VcsState) ∧
      ∀ s, VcsEvent.stateNotify s ∉
        (write_vcs_control ⟨⟨101, 0, 1⟩, 1, 1, none⟩ 0 [0x04, 0x01, 200]).2.2) ∨
    ((write_vcs_control ⟨⟨101, 0, 1⟩, 1, 1, none⟩ 0 [0x04, 0x01, 200]).2.1.state ≠
        (⟨101, 0, 1⟩ : VcsState) ∧
      (write_vcs_control ⟨⟨101, 0, 1⟩, 1, 1, none⟩ 0 [0x04, 0x01, 200]).2.1.state.change_counter =
        (2 : Nat) % 256 ∧
      VcsEvent.stateNotify
          (write_vcs_control ⟨⟨101, 0, 1⟩, 1, 1, none⟩ 0 [0x04, 0x01, 200]).2.1.state ∈
        (write_vcs_control ⟨⟨101, 0, 1⟩, 1, 1, none⟩ 0 [0x04, 0x01, 200]).2.2) :=
  C4_idem_commit_amended.1 ⟨⟨101, 0, 1⟩, 1, 1, none⟩ 0 [0x04, 0x01, 200] 3 (by decide)

/-- C6 counterexample: a VOCS control-point write with a non-zero ATT
offset but an invalid opcode byte fails with Opcode Not Supported rather
than Invalid Offset, because the VOCS handler checks the opcode before the
offset. -/
theorem C6_offset_guard_counterexample :
    (write_vocs_control ⟨⟨0, 0⟩, false⟩ 1 [0x00, 0x00]).1 =
        .err VOCS_ERR_OP_NOT_SUPPORTED ∧
      (write_vocs_control ⟨⟨0, 0⟩, false⟩ 1 [0x00, 0x00]).1 ≠
        .err BT_ATT_ERR_INVALID_OFFSET := by decide

/-- C6 (amended): for VCS and AICS every non-zero-offset control-point
write fails with Invalid Offset regardless of opcode and length; in the
VOCS handler the offset guard runs after the zero-length and opcode guards,
so a non-zero-offset write fails with Invalid Attribute Length when the
payload is empty, with Opcode Not Supported when the opcode byte is not
SetOffset, and with Invalid Offset otherwise. -/
theorem C6_offset_guard_amended :
    ∀ off : Nat, off ≠ 0 →
      (∀ (inst : VcsInst) (data : List Nat),
        (write_vcs_control inst off data).1 = .err BT_ATT_ERR_INVALID_OFFSET) ∧
      (∀ (inst : AicsInst) (data : List Nat),
        (write_aics_control inst off data).1 = .err BT_ATT_ERR_INVALID_OFFSET) ∧
      (∀ (inst : VocsInst) (data : List Nat),
        (write_vocs_control inst off data).1 =
          if data.length = 0 then .err BT_ATT_ERR_INVALID_ATTRIBUTE_LEN
          else if byte data 0 ≠ VOCS_OPCODE_SET_OFFSET then
            .err VOCS_ERR_OP_NOT_SUPPORTED
          else .err BT_ATT_ERR_INVALID_OFFSET) := by
  intro off hoff
  refine ⟨fun inst data => ?_, fun inst data => ?_, fun inst data => ?_⟩
  · rw [vcs_err_of_offset hoff]
  · rw [aics_err_of_offset hoff]
  · by_cases h2 : data.length = 0
    · rw [vocs_err_of_len0 h2]
      simp [h2]
    · by_cases h3 : byte data 0 = VOCS_OPCODE_SET_OFFSET
      · rw [vocs_err_of_offset h2 h3 hoff]
        simp [h2, h3]
      · rw [vocs_err_of_opcode h2 h3]
        simp [h2, h3]

/-- C6 witness: a fragmented (offset 1) VCS write is rejected with Invalid
Offset. -/
theorem C6_offset_guard_witness :
    (write_vcs_control ⟨⟨100, 0, 0⟩, 0, 1, none⟩ 1 [0x01, 0x00]).1 =
      .err BT_ATT_ERR_INVALID_OFFSET :=
  (C6_offset_guard_amended 1 (by decide)).1 ⟨⟨100, 0, 0⟩, 0, 1, none⟩ [0x01, 0x00]

/-- C8: a VOCS SetOffset write that passes the offset, opcode, length and
counter guards fails with error 0x82 (Out Of Range) and leaves the instance
unchanged when the decoded 16-bit operand v satisfies |v| > 255, and stores
exactly v as the new offset when v lies in [-255, 255]. -/
theorem C8_vocs_set_offset :
    ∀ (inst : VocsInst) (off : Nat) (data : List Nat),
      vocsPreCounterGuards off data →
      byte data 1 = inst.state.change_counter →
      ((255 < i16ofLE (byte data 2) (byte data 3) ∨
          i16ofLE (byte data 2) (byte data 3) < -255) →
        write_vocs_control inst off data = (.err VOCS_ERR_OUT_OF_RANGE, inst, [])) ∧
      ((-255 ≤ i16ofLE (byte data 2) (byte data 3) ∧
          i16ofLE (byte data 2) (byte data 3) ≤ 255) →
        (write_vocs_control inst off data).2.1.state.offset =
          i16ofLE (byte data 2) (byte data 3)) := by
  intro inst off data hg hc
  constructor
  · intro hr
    exact vocs_err_of_range hg hc hr
  · intro hin
    have hr : ¬ (255 < i16ofLE (byte data 2) (byte data 3) ∨
        i16ofLE (byte data 2) (byte data 3) < -255) := by
      push_neg
      exact ⟨hin.2, hin.1⟩
    by_cases hne : inst.state.offset = i16ofLE (byte data 2) (byte data 3)
    · rw [vocs_ok_of_same hg hc hr hne]
      exact hne
    · rw [vocs_ok_of_change hg hc hr hne]

/-- C8 witness: SetOffset(+255) on a zeroed instance stores exactly 255;
the guards hold for the concrete write [0x01, 0x00, 0xFF, 0x00]. -/
theorem C8_vocs_set_offset_witness :
    (write_vocs_control ⟨⟨0, 0⟩, false⟩ 0 [0x01, 0x00, 0xFF, 0x00]).2.1.state.offset =
      i16ofLE (byte [0x01, 0x00, 0xFF, 0x00] 2) (byte [0x01, 0x00, 0xFF, 0x00] 3) :=
  (C8_vocs_set_offset ⟨⟨0, 0⟩, false⟩ 0 [0x01, 0x00, 0xFF, 0x00]
      (by decide) (by decide)).2 (by decide)

lemma vcs_switch_vc_of_le {inst : VcsInst} {data : List Nat} {op : Nat}
    {s1 : VcsState} {notify vc : Bool}
    (hy : vcsOpcodeSwitch inst data op = some (s1, notify, vc))
    (hop : op ≤ VCS_OPCODE_SET_ABS_VOL) : vc = true := by
  simp only [VCS_OPCODE_SET_ABS_VOL] at hop
  unfold vcsOpcodeSwitch at hy
  split at hy <;> dsimp only [] at hy <;> (try split_ifs at hy) <;> simp_all

lemma vcs_flags_untouched {inst : VcsInst} {off : Nat} {data : List Nat}
    (hf : inst.flags ≠ 0) :
    (write_vcs_control inst off data).2.1.flags = inst.flags ∧
      ∀ f, VcsEvent.flagsNotify f ∉ (write_vcs_control inst off data).2.2 := by
  by_cases hg : vcsPreCounterGuards off data
  · by_cases hc : byte data 1 = inst.state.change_counter
    · obtain ⟨⟨s1, notify, vc⟩, hy⟩ := vcs_switch_isSome inst data hg.2.2.1
      rw [vcs_pass_eq hg hc hy]
      dsimp only []
      split_ifs <;> simp_all
    · rw [vcs_err_of_counter hg hc]
      simp
  · obtain ⟨e, he⟩ := @vcs_result_err_of_not_guards inst off data hg
    rw [he]
    simp

lemma vcs_flags_one_preserved {inst : VcsInst} {off : Nat} {data : List Nat}
    (hf : inst.flags = 1) :
    (write_vcs_control inst off data).2.1.flags = 1 := by
  have h := @vcs_flags_untouched inst off data (by simp [hf])
  rw [h.1, hf]

/-- C7: any VCS control-point write that returns success with a
volume-changing opcode (0x00–0x04) leaves `flags` equal to 1 when it was 0
(latching it) and emits the dedicated Flags notification exactly when the
latch fires (the first time only); a write never touches a non-zero
`flags`, and once `flags` is 1 it stays 1 across any further sequence of
control-point writes. -/
theorem C7_flags_latch :
    (∀ (inst : VcsInst) (off : Nat) (data : List Nat) (n : Nat),
      (write_vcs_control inst off data).1 = .ok n →
      byte data 0 ≤ VCS_OPCODE_SET_ABS_VOL →
      (write_vcs_control inst off data).2.1.flags =
          (if inst.flags = 0 then 1 else inst.flags) ∧
        (VcsEvent.flagsNotify 1 ∈ (write_vcs_control inst off data).2.2 ↔
          inst.flags = 0)) ∧
    (∀ (inst : VcsInst) (off : Nat) (data : List Nat),
      inst.flags ≠ 0 →
      (write_vcs_control inst off data).2.1.flags = inst.flags ∧
        ∀ f, VcsEvent.flagsNotify f ∉ (write_vcs_control inst off data).2.2) ∧
    (∀ (inst : VcsInst) (ws : List (Nat × List Nat)),
      inst.flags = 1 → (vcsWriteSeq inst ws).flags = 1) := by
  refine ⟨fun inst off data n hok hop => ?_,
    fun inst off data hf => vcs_flags_untouched hf, fun inst ws => ?_⟩
  · by_cases hg : vcsPreCounterGuards off data
    · by_cases hc : byte data 1 = inst.state.change_counter
      · obtain ⟨⟨s1, notify, vc⟩, hy⟩ := vcs_switch_isSome inst data hg.2.2.1
        have hvc : vc = true := vcs_switch_vc_of_le hy hop
        subst hvc
        rw [vcs_pass_eq hg hc hy]
        by_cases hf : inst.flags = 0 <;>
          (dsimp only []; split_ifs <;> simp_all)
      · rw [vcs_err_of_counter hg hc] at hok
        exact absurd hok (by simp)
    · obtain ⟨e, he⟩ := @vcs_result_err_of_not_guards inst off data hg
      rw [he] at hok
      exact absurd hok (by simp)
  · induction ws generalizing inst with
    | nil => exact fun hf => hf
    | cons w ws ih =>
        intro hf
        exact ih ((write_vcs_control inst w.1 w.2).2.1)
          (vcs_flags_one_preserved hf)

/-- C7 witness: spec scenario 1 — the first RelVolUp on the default state
latches flags to 1 and emits the Flags notification; a later Mute write on
the latched instance leaves flags at 1. -/
theorem C7_flags_latch_witness :
    ((write_vcs_control ⟨⟨100, 0, 0⟩, 0, 1, none⟩ 0 [0x01, 0x00]).2.1.flags =
        (if (0 : Nat) = 0 then 1 else 0) ∧
      (VcsEvent.flagsNotify 1 ∈
          (write_vcs_control ⟨⟨100, 0, 0⟩, 0, 1, none⟩ 0 [0x01, 0x00]).2.2 ↔
        (0 : Nat) = 0)) ∧
    (vcsWriteSeq ⟨⟨101, 0, 1⟩, 1, 1, none⟩ [(0, [0x06, 0x01])]).flags = 1 :=
  ⟨(C7_flags_latch.1 ⟨⟨100, 0, 0⟩, 0, 1, none⟩ 0 [0x01, 0x00] 2
      (by decide) (by decide)),
   C7_flags_latch.2.2 ⟨⟨101, 0, 1⟩, 1, 1, none⟩ [(0, [0x06, 0x01])] (by decide)⟩

/-- C10: the flags-latch path guards the upper-layer callback on
`cb && cb->state` but then invokes `cb->flags`; for every callback
structure with a non-null `state` member and a null `flags` member, any
successful volume-changing write that latches the flags invokes the null
`flags` function pointer. -/
theorem C10_null_flags_cb_invoked :
    ∀ (inst : VcsInst) (off : Nat) (data : List Nat) (n : Nat),
      inst.cb = some ⟨true, false⟩ →
      inst.flags = 0 →
      byte data 0 ≤ VCS_OPCODE_SET_ABS_VOL →
      (write_vcs_control inst off data).1 = .ok n →
      VcsEvent.flagsCbCall true ∈ (write_vcs_control inst off data).2.2 := by
  intro inst off data n hcb hf hop hok
  by_cases hg : vcsPreCounterGuards off data
  · by_cases hc : byte data 1 = inst.state.change_counter
    · obtain ⟨⟨s1, notify, vc⟩, hy⟩ := vcs_switch_isSome inst data hg.2.2.1
      have hvc : vc = true := vcs_switch_vc_of_le hy hop
      subst hvc
      rw [vcs_pass_eq hg hc hy]
      have hcbs : vcsCbStateSet inst = true := by
        simp [vcsCbStateSet, hcb]
      have hcbf : vcsCbFlagsSet inst = false := by
        simp [vcsCbFlagsSet, hcb]
      dsimp only []
      split_ifs <;> simp_all
    · rw [vcs_err_of_counter hg hc] at hok
      exact absurd hok (by simp)
  · obtain ⟨e, he⟩ := @vcs_result_err_of_not_guards inst off data hg
    rw [he] at hok
    exact absurd hok (by simp)

/-- C10 witness: a concrete registered callback structure with non-null
state member and null flags member, on the first successful RelVolDown. -/
theorem C10_null_flags_cb_invoked_witness :
    VcsEvent.flagsCbCall true ∈
      (write_vcs_control ⟨⟨100, 0, 0⟩, 0, 1, some ⟨true, false⟩⟩ 0
        [0x00, 0x00]).2.2 :=
  C10_null_flags_cb_invoked ⟨⟨100, 0, 0⟩, 0, 1, some ⟨true, false⟩⟩ 0
    [0x00, 0x00] 2 rfl rfl (by decide) (by decide)

/-- C1 counterexample: `AICS_INPUT_MODE_SETTABLE` lists Manual-Only and
Manual, so a guard-passing SetGain in Auto mode returns success without
applying the operand, while in Manual-Only mode the operand is applied —
the opposite of the claim on both of these modes. -/
theorem C1_setgain_mode_counterexample :
    ((write_aics_control ⟨⟨0, 0, AICS_MODE_AUTO, 0⟩, ⟨1, -10, 10⟩, false⟩ 0
        [0x01, 0x00, 0x05]).1 = .ok 3 ∧
      (write_aics_control ⟨⟨0, 0, AICS_MODE_AUTO, 0⟩, ⟨1, -10, 10⟩, false⟩ 0
        [0x01, 0x00, 0x05]).2.1.state.gain = 0) ∧
    ((write_aics_control ⟨⟨0, 0, AICS_MODE_MANUAL_ONLY, 0⟩, ⟨1, -10, 10⟩, false⟩ 0
        [0x01, 0x00, 0x05]).1 = .ok 3 ∧
      (write_aics_control ⟨⟨0, 0, AICS_MODE_MANUAL_ONLY, 0⟩, ⟨1, -10, 10⟩, false⟩ 0
        [0x01, 0x00, 0x05]).2.1.state.gain = 5) := by decide

/-- C1 (amended): a SetGain write that passes the offset, opcode, length,
counter and range guards always returns success; the operand becomes the
new gain exactly when the mode is Manual-Only or Manual (the modes
`AICS_INPUT_MODE_SETTABLE` lists), and in Auto-Only or Auto mode the gain
is left unchanged. -/
theorem C1_setgain_mode_amended :
    ∀ (inst : AicsInst) (off : Nat) (data : List Nat),
      aicsPreCounterGuards off data →
      byte data 0 = AICS_OPCODE_SET_GAIN →
      byte data 1 = inst.state.change_counter →
      inst.gain_settings.minimum ≤ i8 (byte data 2) →
      i8 (byte data 2) ≤ inst.gain_settings.maximum →
      (write_aics_control inst off data).1 = .ok data.length ∧
      (write_aics_control inst off data).2.1.state.gain =
        (if inst.state.mode = AICS_MODE_MANUAL_ONLY ∨
            inst.state.mode = AICS_MODE_MANUAL
         then i8 (byte data 2) else inst.state.gain) := by
  intro inst off data hg hop hc hmin hmax
  have hrange : ¬ (i8 (byte data 2) < inst.gain_settings.minimum ∨
      inst.gain_settings.maximum < i8 (byte data 2)) := by
    push_neg
    exact ⟨hmin, hmax⟩
  by_cases hset : AICS_INPUT_MODE_SETTABLE inst.state.mode
  · by_cases hgain : inst.state.gain = i8 (byte data 2)
    · have hy : aicsOpcodeSwitch inst data (byte data 0) =
          some (.inr (inst.state, false)) := by
        rw [hop]
        simp [aicsOpcodeSwitch, AICS_OPCODE_SET_GAIN, hrange, hset, hgain]
      rw [aics_pass_commit hg hc hy]
      have hset' := hset
      unfold AICS_INPUT_MODE_SETTABLE at hset'
      simp [hset', hgain]
    · have hy : aicsOpcodeSwitch inst data (byte data 0) =
          some (.inr ({ inst.state with gain := i8 (byte data 2) }, true)) := by
        rw [hop]
        simp [aicsOpcodeSwitch, AICS_OPCODE_SET_GAIN, hrange, hset, hgain]
      rw [aics_pass_commit hg hc hy]
      have hset' := hset
      unfold AICS_INPUT_MODE_SETTABLE at hset'
      simp [hset']
  · have hy : aicsOpcodeSwitch inst data (byte data 0) =
        some (.inr (inst.state, false)) := by
      rw [hop]
      simp [aicsOpcodeSwitch, AICS_OPCODE_SET_GAIN, hrange, hset]
    rw [aics_pass_commit hg hc hy]
    have hset' := hset
    unfold AICS_INPUT_MODE_SETTABLE at hset'
    simp [hset']

/-- C1 witness: SetGain(5) in Manual mode applies the operand. -/
theorem C1_setgain_mode_witness :
    (write_aics_control ⟨⟨0, 0, AICS_MODE_MANUAL, 0⟩, ⟨1, -10, 10⟩, false⟩ 0
        [0x01, 0x00, 0x05]).1 = .ok 3 ∧
    (write_aics_control ⟨⟨0, 0, AICS_MODE_MANUAL, 0⟩, ⟨1, -10, 10⟩, false⟩ 0
        [0x01, 0x00, 0x05]).2.1.state.gain =
      (if (AICS_MODE_MANUAL = AICS_MODE_MANUAL_ONLY ∨
          AICS_MODE_MANUAL = AICS_MODE_MANUAL)
       then i8 (byte [0x01, 0x00, 0x05] 2) else 0) :=
  C1_setgain_mode_amended ⟨⟨0, 0, AICS_MODE_MANUAL, 0⟩, ⟨1, -10, 10⟩, false⟩ 0
    [0x01, 0x00, 0x05] (by decide) (by decide) (by decide) (by decide) (by decide)

lemma ascs_rsp_add_preserves_special {b : Option CpRsp} {id op code reason : Nat}
    (hb : ∀ r, b = some r →
      (∃ e ∈ r.entries, e.code = BT_ASCS_RSP_NOT_SUPPORTED ∨
        e.code = BT_ASCS_RSP_TRUNCATED) → r.num_ase = 0xff) :
    ∀ r, ascs_cp_rsp_add b id op code reason = some r →
      (∃ e ∈ r.entries, e.code = BT_ASCS_RSP_NOT_SUPPORTED ∨
        e.code = BT_ASCS_RSP_TRUNCATED) → r.num_ase = 0xff := by
  intro r hr hex
  cases b with
  | none =>
    simp only [ascs_cp_rsp_add] at hr
    by_cases hsp : code = BT_ASCS_RSP_NOT_SUPPORTED ∨ code = BT_ASCS_RSP_TRUNCATED
    · rw [if_neg (by simp), if_pos hsp] at hr
      injection hr with hr
      subst hr
      rfl
    · rw [if_neg (by simp), if_neg hsp] at hr
      injection hr with hr
      subst hr
      obtain ⟨e, he, hspe⟩ := hex
      simp only [List.nil_append, List.mem_singleton] at he
      subst he
      exact absurd hspe hsp
  | some r0 =>
    simp only [ascs_cp_rsp_add] at hr
    by_cases h1 : r0.num_ase = 0xff
    · rw [if_pos h1] at hr
      injection hr with hr
      subst hr
      exact h1
    · by_cases hsp : code = BT_ASCS_RSP_NOT_SUPPORTED ∨ code = BT_ASCS_RSP_TRUNCATED
      · rw [if_neg h1, if_pos hsp] at hr
        injection hr with hr
        subst hr
        rfl
      · rw [if_neg h1, if_neg hsp] at hr
        injection hr with hr
        subst hr
        obtain ⟨e, he, hspe⟩ := hex
        simp only [List.mem_append, List.mem_singleton] at he
        rcases he with he | he
        · exact absurd (hb r0 rfl ⟨e, he, hspe⟩) h1
        · subst he
          exact absurd hspe hsp

lemma ascs_rsp_add_preserves_count {b : Option CpRsp} {id op code reason : Nat}
    (hcode : ¬ (code = BT_ASCS_RSP_NOT_SUPPORTED ∨ code = BT_ASCS_RSP_TRUNCATED))
    (hb : ∀ r, b = some r → r.num_ase = r.entries.length) :
    ∀ r, ascs_cp_rsp_add b id op code reason = some r →
      r.num_ase = r.entries.length := by
  intro r hr
  cases b with
  | none =>
    simp only [ascs_cp_rsp_add] at hr
    rw [if_neg (by simp), if_neg hcode] at hr
    injection hr with hr
    subst hr
    rfl
  | some r0 =>
    simp only [ascs_cp_rsp_add] at hr
    by_cases h1 : r0.num_ase = 0xff
    · rw [if_pos h1] at hr
      injection hr with hr
      subst hr
      exact hb r0 rfl
    · rw [if_neg h1, if_neg hcode] at hr
      injection hr with hr
      subst hr
      simp [hb r0 rfl]

/-- C9: in a response built by any sequence of `ascs_cp_rsp_add` calls from
an empty buffer, `num_ases` is 0xFF whenever an entry with code Not
Supported or Truncated has been appended; when no call used one of those
codes, `num_ases` equals the number of per-ASE entries appended; and once
`num_ases` is 0xFF a further call changes nothing. -/
theorem C9_num_ases_overload :
    ∀ calls : List (Nat × Nat × Nat × Nat),
      (∀ r, ascsRspOfCalls calls = some r →
        (∃ e ∈ r.entries, e.code = BT_ASCS_RSP_NOT_SUPPORTED ∨
          e.code = BT_ASCS_RSP_TRUNCATED) → r.num_ase = 0xff) ∧
      ((∀ c ∈ calls, ¬ (c.2.2.1 = BT_ASCS_RSP_NOT_SUPPORTED ∨
          c.2.2.1 = BT_ASCS_RSP_TRUNCATED)) →
        ∀ r, ascsRspOfCalls calls = some r → r.num_ase = r.entries.length) ∧
      (∀ (r : CpRsp) (id op code reason : Nat), r.num_ase = 0xff →
        ascs_cp_rsp_add (some r) id op code reason = some r) := by
  have hgen : ∀ (calls : List (Nat × Nat × Nat × Nat)) (b : Option CpRsp),
      (∀ r, b = some r →
        (∃ e ∈ r.entries, e.code = BT_ASCS_RSP_NOT_SUPPORTED ∨
          e.code = BT_ASCS_RSP_TRUNCATED) → r.num_ase = 0xff) →
      ∀ r, calls.foldl
          (fun b c => ascs_cp_rsp_add b c.1 c.2.1 c.2.2.1 c.2.2.2) b = some r →
        (∃ e ∈ r.entries, e.code = BT_ASCS_RSP_NOT_SUPPORTED ∨
          e.code = BT_ASCS_RSP_TRUNCATED) → r.num_ase = 0xff := by
    intro calls
    induction calls with
    | nil => exact fun b hb r hr => hb r hr
    | cons c cs ih =>
      intro b hb
      exact ih _ (ascs_rsp_add_preserves_special hb)
  have hgen2 : ∀ (calls : List (Nat × Nat × Nat × Nat)),
      (∀ c ∈ calls, ¬ (c.2.2.1 = BT_ASCS_RSP_NOT_SUPPORTED ∨
        c.2.2.1 = BT_ASCS_RSP_TRUNCATED)) →
      ∀ b : Option CpRsp,
      (∀ r, b = some r → r.num_ase = r.entries.length) →
      ∀ r, calls.foldl
          (fun b c => ascs_cp_rsp_add b c.1 c.2.1 c.2.2.1 c.2.2.2) b = some r →
        r.num_ase = r.entries.length := by
    intro calls
    induction calls with
    | nil => exact fun _ b hb r hr => hb r hr
    | cons c cs ih =>
      intro hcs b hb
      refine ih (fun x hx => hcs x (List.mem_cons_of_mem c hx)) _
        (ascs_rsp_add_preserves_count (hcs c (List.mem_cons_self c cs)) hb)
  intro calls
  refine ⟨hgen calls none (by simp), fun hcs => hgen2 calls hcs none (by simp),
    fun r id op code reason hr => ?_⟩
  simp [ascs_cp_rsp_add, hr]

/-- C9 witness: a Config response for ASE 1 followed by a Not Supported
entry yields `num_ases = 0xFF`. -/
theorem C9_num_ases_overload_witness :
    (⟨2, 0xff, [⟨1, 0, 0⟩, ⟨1, 1, 0⟩]⟩ : CpRsp).num_ase = 0xff :=
  (C9_num_ases_overload [(1, 2, 0, 0), (1, 2, 1, 0)]).1
    ⟨2, 0xff, [⟨1, 0, 0⟩, ⟨1, 1, 0⟩]⟩ (by decide) (by decide)

/-- C2 counterexample: with state reads succeeding, a transaction whose
write completions are Invalid Change Counter, Invalid Change Counter,
success issues a third control-point write and delivers success (0) to the
application — the client retries after the second counter mismatch instead
of surfacing it as an error after exactly one retry. -/
theorem C2_retry_once_counterexample :
    clientTransact ⟨true, 0, [0x02, 0x00], true⟩
        [AICS_ERR_INVALID_COUNTER, AICS_ERR_INVALID_COUNTER, 0]
        [.good ⟨0, 0, 2, 7⟩, .good ⟨0, 0, 2, 9⟩] = (3, some 0) ∧
      clientTransact ⟨true, 0, [0x02, 0x00], true⟩
        [AICS_ERR_INVALID_COUNTER, AICS_ERR_INVALID_COUNTER, 0]
        [.good ⟨0, 0, 2, 7⟩, .good ⟨0, 0, 2, 9⟩] ≠
        (2, some AICS_ERR_INVALID_COUNTER) := by decide

lemma aics_client_retry_step {inst : AicsClientInst}
    (hsh : inst.state_handle = true) (wrs : List Nat) (rds : List ReadResp)
    (st : AicsState) :
    clientTransact inst (AICS_ERR_INVALID_COUNTER :: wrs)
        (ReadResp.good st :: rds) =
      ((clientTransact
          (internal_read_input_state_cb inst 0 (some st) true true).2 wrs rds).1 + 1,
       (clientTransact
          (internal_read_input_state_cb inst 0 (some st) true true).2 wrs rds).2) := by
  conv =>
    lhs
    rw [clientTransact]
  simp [aics_client_write_aics_cp_cb, hsh, internal_read_input_state_cb]

lemma aics_client_read_cb_handle {inst : AicsClientInst} (st : AicsState) :
    (internal_read_input_state_cb inst 0 (some st) true true).2.state_handle =
      inst.state_handle := by
  simp [internal_read_input_state_cb]

/-- C2 (amended): on a control-point write completion the AICS client
surfaces success and non-counter errors directly; on an Invalid Change
Counter completion (with a known state handle) it re-reads the state — a
failed re-read surfaces Unlikely (0x0E), a successful one updates the
cached change counter from the response and re-issues the buffered write.
This repeats on every further counter mismatch: after n consecutive
Invalid Change Counter completions with successful re-reads, n + 1 writes
have been issued in total and the application callback finally receives
success; a second mismatch is retried, not surfaced. -/
theorem C2_write_retry_amended :
    (∀ (inst : AicsClientInst) (wrs : List Nat) (rds : List ReadResp),
      clientTransact inst (0 :: wrs) rds = (1, some 0)) ∧
    (∀ (inst : AicsClientInst) (e : Nat) (wrs : List Nat) (rds : List ReadResp),
      ¬ (e = AICS_ERR_INVALID_COUNTER ∧ inst.state_handle = true) →
      clientTransact inst (e :: wrs) rds = (1, some e)) ∧
    (∀ (inst : AicsClientInst) (c : Nat) (wrs : List Nat) (rds : List ReadResp),
      inst.state_handle = true → c ≠ 0 →
      clientTransact inst (AICS_ERR_INVALID_COUNTER :: wrs) (.bad c :: rds) =
        (1, some BT_ATT_ERR_UNLIKELY)) ∧
    (∀ (inst : AicsClientInst) (st : AicsState),
      (internal_read_input_state_cb inst 0 (some st) true true).2.change_counter =
        st.change_counter) ∧
    (∀ (n : Nat) (inst : AicsClientInst) (st : AicsState),
      inst.state_handle = true →
      clientTransact inst (List.replicate n AICS_ERR_INVALID_COUNTER ++ [0])
        (List.replicate n (ReadResp.good st)) = (n + 1, some 0)) := by
  refine ⟨fun inst wrs rds => ?_, fun inst e wrs rds he => ?_,
    fun inst c wrs rds hsh hc => ?_, fun inst st => ?_, fun n => ?_⟩
  · rw [clientTransact]
    simp [aics_client_write_aics_cp_cb, AICS_ERR_INVALID_COUNTER]
  · rw [clientTransact]
    simp [aics_client_write_aics_cp_cb, he]
  · rw [clientTransact]
    simp [aics_client_write_aics_cp_cb, hsh, internal_read_input_state_cb, hc]
  · simp [internal_read_input_state_cb]
  · induction n with
    | zero =>
      intro inst st hsh
      rw [List.replicate_zero, List.replicate_zero, List.nil_append,
        clientTransact]
      simp [aics_client_write_aics_cp_cb, AICS_ERR_INVALID_COUNTER]
    | succ n ih =>
      intro inst st hsh
      rw [List.replicate_succ, List.replicate_succ, List.cons_append,
        aics_client_retry_step hsh _ _ st,
        ih _ st (by rw [aics_client_read_cb_handle st, hsh])]

/-- C2 witness: two consecutive counter mismatches with successful re-reads
end in success after three writes in total. -/
theorem C2_write_retry_witness :
    clientTransact ⟨true, 0, [0x02, 0x00], true⟩
        (List.replicate 2 AICS_ERR_INVALID_COUNTER ++ [0])
        (List.replicate 2 (ReadResp.good ⟨0, 0, 2, 7⟩)) = (2 + 1, some 0) :=
  C2_write_retry_amended.2.2.2.2 2 ⟨true, 0, [0x02, 0x00], true⟩ ⟨0, 0, 2, 7⟩ rfl

/-- C3 counterexample: two reachable CSIS states violate the claimed
biconditional.  A server-side `bt_csis_lock(true, false)` locks the set
while `lock_client_addr` stays the zeroed address (Locked without a
non-empty holder address), and a forced server release of a client-held
lock leaves the holder address set and the 60-second timer armed while the
state is Released. -/
theorem C3_lock_invariant_counterexample :
    (CsisReachable (bt_csis_lock csisInit true false) ∧
      ¬ csisSpecLockInv (bt_csis_lock csisInit true false)) ∧
    (CsisReachable
        (bt_csis_lock (write_set_lock csisInit (some 5) 0 [BT_CSIP_LOCK_VALUE]).2
          false true) ∧
      ¬ csisSpecLockInv
        (bt_csis_lock (write_set_lock csisInit (some 5) 0 [BT_CSIP_LOCK_VALUE]).2
          false true)) := by
  refine ⟨⟨?_, by decide⟩, ⟨?_, by decide⟩⟩
  · exact CsisReachable.step CsisReachable.init
      (CsisStep.serverLock csisInit true false)
  · exact CsisReachable.step
      (CsisReachable.step CsisReachable.init
        (CsisStep.write csisInit (some 5) 0 [BT_CSIP_LOCK_VALUE]))
      (CsisStep.serverLock _ false true)

lemma write_set_lock_preserves_locked_timer {s : CsisState}
    (hs : s.set_lock = BT_CSIP_LOCK_VALUE → s.timer_armed = true)
    (conn : Option Nat) (off : Nat) (data : List Nat) :
    (write_set_lock s conn off data).2.set_lock = BT_CSIP_LOCK_VALUE →
      (write_set_lock s conn off data).2.timer_armed = true := by
  unfold write_set_lock
  dsimp only []
  split_ifs with h1 h2 h3 h4 h5 h6 <;> intro hl <;>
    first
      | exact hs hl
      | rfl
      | exact absurd hl h6

lemma csis_step_locked_timer {s s' : CsisState}
    (hs : s.set_lock = BT_CSIP_LOCK_VALUE → s.timer_armed = true)
    (hstep : CsisStep s s') :
    s'.set_lock = BT_CSIP_LOCK_VALUE → s'.timer_armed = true := by
  cases hstep with
  | write conn off data =>
    exact write_set_lock_preserves_locked_timer hs conn off data
  | serverLock lock force =>
    unfold bt_csis_lock
    by_cases h1 : ¬ lock = true ∧ force = true
    · rw [if_pos h1]
      intro hl
      exact absurd hl (by simp [BT_CSIP_RELEASE_VALUE, BT_CSIP_LOCK_VALUE])
    · rw [if_neg h1]
      exact write_set_lock_preserves_locked_timer hs none 0 _
  | timeout harm =>
    intro hl
    exact absurd hl (by simp [set_lock_timer_handler,
      BT_CSIP_RELEASE_VALUE, BT_CSIP_LOCK_VALUE])
  | disconnect addr bonded =>
    unfold csis_disconnected
    split_ifs with h1 h2 <;> intro hl
    · exact hs hl
    · exact absurd hl (by simp [BT_CSIP_RELEASE_VALUE, BT_CSIP_LOCK_VALUE])
    · exact hs hl

/-- C3 (amended): the invariant that survives every reachable step is the
single implication that a Locked `set_lock` has the 60-second timer armed;
the holder address may be empty while Locked (server-side lock) and the
address/timer conjunction may hold while Released (forced release, timer
expiry leftovers), so neither the address condition nor the converse is an
invariant. -/
theorem C3_lock_invariant_amended :
    ∀ st : CsisState, CsisReachable st →
      st.set_lock = BT_CSIP_LOCK_VALUE → st.timer_armed = true := by
  intro st hreach
  induction hreach with
  | init => exact fun h => absurd h (by decide)
  | step hr hstep ih => exact csis_step_locked_timer ih hstep

/-- C3 witness: a client lock write from the initial state yields a
reachable Locked state whose timer the amended invariant shows armed. -/
theorem C3_lock_invariant_witness :
    (write_set_lock csisInit (some 5) 0 [BT_CSIP_LOCK_VALUE]).2.timer_armed =
      true :=
  C3_lock_invariant_amended
    (write_set_lock csisInit (some 5) 0 [BT_CSIP_LOCK_VALUE]).2
    (CsisReachable.step CsisReachable.init
      (CsisStep.write csisInit (some 5) 0 [BT_CSIP_LOCK_VALUE]))
    (by decide)

end Zephyr
